import Mathlib

/-!
# Sales backend: query composition and pagination

A shallow embedding of `src/services/salesService.js` (and of the request
coercion in `src/controllers/salesController.js`), followed by theorems about
the predicate builders, the combined query, the pagination metadata and the two
retrieval procedures of `getSalesData`.

Conventions of the embedding:

* JavaScript numbers that the code only uses as integers (page, limit, ages,
  identifiers, counts) are `Int`/`Nat`; they are exact up to `2 ^ 53`. The one
  number the code reads from free text, `parseInt` of the search token's
  digits, is rounded to a double (`roundToDouble`, `jsNumber`).
* A store document is an association list from field names to values; a missing
  field reads as `Value.null`.
* A query object is the list of its entries in insertion order; `[]` is `{}`.
* The document store is an external collaborator: `Store` is the record of the
  operations the service calls, each of which may fail with a message.
  `listStore` is the reference store over an explicit list of documents.
-/

namespace SalesBackend

/-! ## Values, documents and queries -/

/-- A scalar stored in a document field, or handed to a query operator:
`null`, an integer-valued number, the number `Infinity`, or a string. -/
inductive Value where
  | null
  | num (n : Int)
  | str (s : String)
  | inf
  deriving DecidableEq, Repr

/-- A store document (also the shape of a projected response row). -/
abbrev Record := List (String × Value)

/-- Field read `item[name]`: the first binding of `name`, `null` when absent. -/
def Record.get (r : Record) (name : String) : Value :=
  match r.find? (fun kv => kv.1 == name) with
  | some kv => kv.2
  | none => Value.null

/-- The right-hand side of a field entry of a query object. -/
inductive Cond where
  /-- `{ $in: vs }` -/
  | isIn (vs : List String)
  /-- `{ $gte: lo, $lte: hi }`, each key present only when its bound is `some` -/
  | bounds (gte lte : Option Value)
  /-- `{ $regex: pattern, $options: options }`, or `new RegExp(pattern, options)` -/
  | regex (pattern options : String)
  /-- a bare value: equality -/
  | eq (v : Value)
  /-- `{ $gt: v }` -/
  | gt (v : Value)
  /-- `{ $lt: v }` -/
  | lt (v : Value)
  deriving DecidableEq, Repr

/-- One entry of a query object: a field condition, `$and: [...]` or `$or: [...]`. -/
inductive Clause where
  | field (name : String) (c : Cond)
  | and (qs : List (List Clause))
  | or (qs : List (List Clause))

/-- A query object: its entries in insertion order. `[]` is `{}`. -/
abbrev Query := List Clause

/-- `Object.keys(q).length` -/
def Query.keyCount (q : Query) : Nat := q.length

/-! ## JavaScript string helpers used by the builders -/

/-- `str.replace(/\D/g, '')`: keep the ASCII decimal digits. -/
def stripNonDigits (s : String) : String :=
  ⟨s.data.filter Char.isDigit⟩

/-- The number a list of decimal digits denotes, most significant first. -/
def digitsValue (cs : List Char) : Nat :=
  cs.foldl (fun acc c => acc * 10 + (c.toNat - 48)) 0

/-- How many times `n` must be halved to fall below `2 ^ 53`, counted up to
`fuel`. -/
def excessBits : Nat → Nat → Nat
  | 0, _ => 0
  | fuel + 1, n => if n < 2 ^ 53 then 0 else excessBits fuel (n / 2) + 1

/-- The value of the IEEE 754 double nearest to the natural number `n`: `n`
is cut to its 53 leading bits, rounding to nearest with ties to even; `none`
is `Infinity`, which starts at `2 ^ 1024 - 2 ^ 970`. (The fuel 1100 exceeds
the 971 bits that a finite double can drop.) -/
def roundToDouble (n : Nat) : Option Nat :=
  let e := excessBits 1100 n
  let q := n / 2 ^ e
  let r := n % 2 ^ e
  let m := if 2 * r > 2 ^ e ∨ (2 * r = 2 ^ e ∧ q % 2 = 1) then q + 1 else q
  if e < 971 ∨ (e = 971 ∧ m < 2 ^ 53) then some (m * 2 ^ e) else none

/-- The JavaScript number that stands for the natural number `n`. -/
def jsNumber (n : Nat) : Value :=
  match roundToDouble n with
  | some v => Value.num v
  | none => Value.inf

/-- `parseInt(s)` for a string without leading blanks, sign or radix mark (the
only string the service passes is the output of `stripNonDigits`): the
number, a double, for the leading run of decimal digits as Node computes it;
`none` (NaN) when that run is empty. -/
def parseInt (s : String) : Option Value :=
  match s.data.takeWhile Char.isDigit with
  | [] => none
  | ds => some (jsNumber (digitsValue ds))

/-- ECMAScript `WhiteSpace` and `LineTerminator` code points, which are what
`String.prototype.trim` strips. -/
def isJsWhitespace (c : Char) : Bool :=
  let n := c.toNat
  n == 9 || n == 10 || n == 11 || n == 12 || n == 13 || n == 32 || n == 160 ||
  n == 5760 || (8192 ≤ n && n ≤ 8202) || n == 8232 || n == 8233 || n == 8239 ||
  n == 8287 || n == 12288 || n == 65279

/-- `str.trim()` -/
def jsTrim (s : String) : String :=
  ⟨((s.data.dropWhile isJsWhitespace).reverse.dropWhile isJsWhitespace).reverse⟩

/-- The characters of the class `[.*+?^${}()|[\]\\]`. -/
def regexSpecials : List Char :=
  ['.', '*', '+', '?', '^', '$', '\x7b', '\x7d', '(', ')', '|', '[', ']', '\\']

/-- `str.replace(/[.*+?^${}()|[\]\\]/g, '\\$&')`: put a backslash before every
special character. -/
def escapeRegex (s : String) : String :=
  ⟨s.data.flatMap (fun c => if c ∈ regexSpecials then ['\\', c] else [c])⟩

/-- JavaScript truthiness of a value that is `null` or a number. -/
def truthyNum : Option Int → Bool
  | none => false
  | some n => n != 0

/-- JavaScript truthiness of a value that is `null` or a string. -/
def truthyStr : Option String → Bool
  | none => false
  | some s => s != ""

/-! ## The predicate builders -/

/-- The `filters` object that `getSales` assembles from the request. -/
structure Filters where
  customerRegion : List String := []
  gender : List String := []
  minAge : Option Int := none
  maxAge : Option Int := none
  productCategory : List String := []
  tags : List String := []
  paymentMethod : List String := []
  startDate : Option String := none
  endDate : Option String := none
  deriving DecidableEq, Repr

/-- `buildFilterQuery` (salesService.js, lines 7-43). Each `if` of the source
appends its entry to the object built so far. `parseInt` of a number that is
already an integer is that integer. -/
def buildFilterQuery (filters : Filters) : Query :=
  let q0 : Query := []
  let q1 := if filters.customerRegion.length != 0
    then q0 ++ [Clause.field "Customer Region" (Cond.isIn filters.customerRegion)] else q0
  let q2 := if filters.gender.length != 0
    then q1 ++ [Clause.field "Gender" (Cond.isIn filters.gender)] else q1
  let q3 := if truthyNum filters.minAge || truthyNum filters.maxAge
    then q2 ++ [Clause.field "Age" (Cond.bounds
      (if truthyNum filters.minAge then filters.minAge.map Value.num else none)
      (if truthyNum filters.maxAge then filters.maxAge.map Value.num else none))]
    else q2
  let q4 := if filters.productCategory.length != 0
    then q3 ++ [Clause.field "Product Category" (Cond.isIn filters.productCategory)] else q3
  let q5 := if filters.tags.length != 0
    then q4 ++ [Clause.field "Tags" (Cond.regex (String.intercalate "|" filters.tags) "i")] else q4
  let q6 := if filters.paymentMethod.length != 0
    then q5 ++ [Clause.field "Payment Method" (Cond.isIn filters.paymentMethod)] else q5
  let q7 := if truthyStr filters.startDate || truthyStr filters.endDate
    then q6 ++ [Clause.field "Date" (Cond.bounds
      (if truthyStr filters.startDate then filters.startDate.map Value.str else none)
      (if truthyStr filters.endDate then filters.endDate.map Value.str else none))]
    else q6
  q7

/-- The six text-field disjuncts pushed at lines 60-67. -/
def textDisjuncts (searchRegex : Cond) : List Query :=
  [[Clause.field "Customer Name" searchRegex],
   [Clause.field "Customer ID" searchRegex],
   [Clause.field "Product ID" searchRegex],
   [Clause.field "Employee Name" searchRegex],
   [Clause.field "Product Name" searchRegex],
   [Clause.field "Brand" searchRegex]]

/-- The five numeric-field disjuncts pushed at lines 71-77. -/
def numericDisjuncts (numSearch : Value) : List Query :=
  [[Clause.field "Transaction ID" (Cond.eq numSearch)],
   [Clause.field "Age" (Cond.eq numSearch)],
   [Clause.field "Quantity" (Cond.eq numSearch)],
   [Clause.field "Total Amount" (Cond.eq numSearch)],
   [Clause.field "Phone Number" (Cond.eq numSearch)]]

/-- `buildSearchQuery` (salesService.js, lines 45-84). -/
def buildSearchQuery (search : String) : Query :=
  if search.length == 0 then []
  else
    let numSearch := parseInt (stripNonDigits search)
    let searchRegex := Cond.regex (escapeRegex search) "i"
    let or0 := textDisjuncts searchRegex
    let or1 :=
      match numSearch with
      | some n => if (jsTrim search).length > 0 then or0 ++ numericDisjuncts n else or0
      | none => or0
    let or2 := or1.filter (fun condition => Query.keyCount condition > 0)
    if or2.length > 0 then [Clause.or or2] else []

/-- The combined query of `getSalesData` (lines 92-99) and of
`getSalesDataOptimized` (lines 279-286). -/
def combineQuery (filterQuery searchQuery : Query) : Query :=
  let c0 : List Query := []
  let c1 := if Query.keyCount filterQuery > 0 then c0 ++ [filterQuery] else c0
  let c2 := if Query.keyCount searchQuery > 0 then c1 ++ [searchQuery] else c1
  if c2.length > 0 then [Clause.and c2] else []

/-! ## What a query means on a document

The regular-expression engine belongs to the store. The meaning of a query is
therefore taken relative to an engine `rx pattern options subject`. -/

/-- A regular-expression engine: pattern, options, subject. -/
abbrev RegexEngine := String → String → String → Bool

/-- Lexicographic order on code points (the store's simple binary collation). -/
def lexLe : List Char → List Char → Bool
  | [], _ => true
  | _ :: _, [] => false
  | a :: as, b :: bs => a.toNat < b.toNat || (a.toNat == b.toNat && lexLe as bs)

/-- Comparison `x <= y` of the query operators: only values of one type compare. -/
def Value.leSame : Value → Value → Bool
  | Value.num a, Value.num b => a ≤ b
  | Value.num _, Value.inf => true
  | Value.inf, Value.inf => true
  | Value.str a, Value.str b => lexLe a.data b.data
  | Value.null, Value.null => true
  | _, _ => false

/-- Comparison `x < y` of the query operators: only values of one type compare. -/
def Value.ltSame : Value → Value → Bool
  | Value.num a, Value.num b => a < b
  | Value.num _, Value.inf => true
  | Value.str a, Value.str b => lexLe a.data b.data && !lexLe b.data a.data
  | _, _ => false

/-- Whether the field value `x` satisfies the condition `c`. An operator
object without any bound, `{}`, is an equality with the empty document, which
no scalar satisfies. -/
def Cond.sat (rx : RegexEngine) (c : Cond) (x : Value) : Bool :=
  match c with
  | Cond.isIn vs =>
    match x with
    | Value.str s => vs.contains s
    | _ => false
  | Cond.bounds gte lte =>
    (gte.isSome || lte.isSome) &&
    (match gte with
      | some lo => Value.leSame lo x
      | none => true) &&
    (match lte with
      | some hi => Value.leSame x hi
      | none => true)
  | Cond.regex pattern options =>
    match x with
    | Value.str s => rx pattern options s
    | _ => false
  | Cond.eq v => x == v
  | Cond.gt v => Value.ltSame v x
  | Cond.lt v => Value.ltSame x v

mutual
/-- Whether document `r` satisfies one entry of a query object. -/
def Clause.sat (rx : RegexEngine) (r : Record) : Clause → Bool
  | Clause.field name c => Cond.sat rx c (r.get name)
  | Clause.and qs => satAll rx r qs
  | Clause.or qs => satAny rx r qs
/-- Whether document `r` satisfies every entry of a query object. -/
def Query.sat (rx : RegexEngine) (r : Record) : List Clause → Bool
  | [] => true
  | c :: cs => Clause.sat rx r c && Query.sat rx r cs
/-- Whether document `r` satisfies all the queries of a `$and` array. -/
def satAll (rx : RegexEngine) (r : Record) : List (List Clause) → Bool
  | [] => true
  | q :: qs => Query.sat rx r q && satAll rx r qs
/-- Whether document `r` satisfies one of the queries of a `$or` array. -/
def satAny (rx : RegexEngine) (r : Record) : List (List Clause) → Bool
  | [] => false
  | q :: qs => Query.sat rx r q || satAny rx r qs
end

/-! ## The store -/

/-- The operations `getSalesData` and `getSalesDataOptimized` call on the
`Sales` model. Each may fail (time-out, connection loss, rejected argument). -/
structure Store where
  /-- `Sales.find(query).sort({[field]: dir}).skip(skip).limit(limit)`;
  `skip = none` when the chain has no `.skip` -/
  find : Query → String → Int → Option Int → Nat → Except String (List Record)
  /-- `Sales.findOne(query, {"Transaction ID": 1}).sort({[field]: dir}).skip(skip)` -/
  findOne : Query → String → Int → Int → Except String (Option Record)
  /-- `Sales.estimatedDocumentCount()` -/
  estimatedDocumentCount : Except String Nat
  /-- `Sales.countDocuments(query)` -/
  countDocuments : Query → Except String Nat
  /-- `Sales.aggregate([{$match: query}?, {$sort}, {$skip}, {$limit}, {$project}])` -/
  aggregate : Option Query → String → Int → Int → Nat → Except String (List Record)

/-- Rank of a value's type in the store's sort order. -/
def Value.rank : Value → Nat
  | Value.null => 0
  | Value.num _ => 1
  | Value.inf => 1
  | Value.str _ => 2

/-- The store's sort order on values: by type, then within the type. -/
def Value.sortLe (a b : Value) : Bool :=
  a.rank < b.rank || (a.rank == b.rank && Value.leSame a b)

/-- Order of two documents under `.sort({[field]: dir})`: descending for
`dir = -1`, ascending otherwise. -/
def docLe (field : String) (dir : Int) (a b : Record) : Prop :=
  if dir = -1 then Value.sortLe (b.get field) (a.get field) = true
  else Value.sortLe (a.get field) (b.get field) = true

instance (field : String) (dir : Int) : DecidableRel (docLe field dir) :=
  fun a b => by unfold docLe; exact inferInstance

/-- `.sort({[field]: dir})` on a list of documents. -/
def sortDocs (field : String) (dir : Int) (docs : List Record) : List Record :=
  docs.insertionSort (docLe field dir)

/-- `.skip(k).limit(n)`; `limit(0)` means no limit. -/
def window (docs : List Record) (k n : Nat) : List Record :=
  if n = 0 then docs.drop k else (docs.drop k).take n

/-- The response row built from a document (lines 225-241, and the `$project`
stage of lines 310-326). -/
def project (item : Record) : Record :=
  [("id", item.get "Transaction ID"),
   ("date", item.get "Date"),
   ("customerId", item.get "Customer ID"),
   ("customerName", item.get "Customer Name"),
   ("phoneNumber", item.get "Phone Number"),
   ("gender", item.get "Gender"),
   ("age", item.get "Age"),
   ("customerRegion", item.get "Customer Region"),
   ("productCategory", item.get "Product Category"),
   ("quantity", item.get "Quantity"),
   ("totalAmount", item.get "Total Amount"),
   ("productId", item.get "Product ID"),
   ("employeeName", item.get "Employee Name"),
   ("paymentMethod", item.get "Payment Method"),
   ("tags", item.get "Tags")]

/-- The reference store over the documents `docs`, with regular-expression
engine `rx`: match, sort, skip, take. A negative skip is rejected, as is a
zero `$limit` stage; the metadata count is the number of documents. -/
def listStore (rx : RegexEngine) (docs : List Record) : Store where
  find := fun query field dir skip limit =>
    match skip with
    | some k =>
      if k < 0 then Except.error "skip value must be non-negative"
      else Except.ok (window (sortDocs field dir (docs.filter (fun r => Query.sat rx r query))) k.toNat limit)
    | none => Except.ok (window (sortDocs field dir (docs.filter (fun r => Query.sat rx r query))) 0 limit)
  findOne := fun query field dir skip =>
    if skip < 0 then Except.error "skip value must be non-negative"
    else Except.ok
      (((sortDocs field dir (docs.filter (fun r => Query.sat rx r query))).drop skip.toNat).head?.map
        (fun r => [("Transaction ID", r.get "Transaction ID")]))
  estimatedDocumentCount := Except.ok docs.length
  countDocuments := fun query => Except.ok (docs.filter (fun r => Query.sat rx r query)).length
  aggregate := fun stage field dir skip limit =>
    if skip < 0 then Except.error "skip value must be non-negative"
    else if limit = 0 then Except.error "the limit must be positive"
    else
      let matched := match stage with
        | some query => docs.filter (fun r => Query.sat rx r query)
        | none => docs
      Except.ok ((window (sortDocs field dir matched) skip.toNat limit).map project)

/-! ## The page service -/

/-- The argument of `getSalesData` and `getSalesDataOptimized`, as `getSales`
and the `/optimized` route pass it (page and limit already through `parseInt`). -/
structure PageRequest where
  page : Int
  limit : Nat
  search : String := ""
  sortBy : String := "date"
  sortOrder : String := "desc"
  filters : Filters := {}
  deriving DecidableEq, Repr

/-- The `pagination` object of a response. -/
structure Pagination where
  currentPage : Int
  totalPages : Int
  totalRecords : Nat
  pageSize : Nat
  hasNextPage : Bool
  hasPreviousPage : Bool
  deriving DecidableEq, Repr

/-- What `getSalesData` resolves to; `error` is the optional `error` key. -/
structure Response where
  data : List Record
  pagination : Pagination
  error : Option String := none
  deriving DecidableEq, Repr

/-- The whitelist `sortFieldMap` of lines 103-116. -/
def sortFieldMap : List (String × String) :=
  [("id", "Transaction ID"), ("date", "Date"), ("quantity", "Quantity"),
   ("customerName", "Customer Name"), ("customerId", "Customer ID"),
   ("totalAmount", "Total Amount"), ("age", "Age"), ("gender", "Gender"),
   ("productCategory", "Product Category"), ("customerRegion", "Customer Region"),
   ("productId", "Product ID"), ("employeeName", "Employee Name")]

/-- Line 118: `sortFieldMap[sortBy] || 'Transaction ID'` (computed by the
source, and not used by any of its queries). -/
def sortField (sortBy : String) : String :=
  (sortFieldMap.lookup sortBy).getD "Transaction ID"

/-- Lines 119 and 123: `sortOrder === 'desc' ? -1 : 1`. -/
def sortDirection (sortOrder : String) : Int :=
  if sortOrder == "desc" then -1 else 1

/-- Line 122: the field the queries of `getSalesData` sort by. -/
def effectiveSortField (sortBy : String) : String :=
  if sortBy == "id" || sortBy == "date" then (sortFieldMap.lookup sortBy).getD "Transaction ID"
  else "Transaction ID"

/-- The direct-offset fetch of lines 161-167: match, sort, skip, take. -/
def directOffset (st : Store) (query : Query) (field : String) (dir : Int) (skip : Int)
    (limit : Nat) : Except String (List Record) :=
  st.find query field dir (some skip) limit

/-- The anchor-range fetch of lines 131-158: read the identifier of the
document at position `skip` of the whole collection in identifier order, then
query with a strict bound on the identifier and no skip. No anchor document
leaves `data` empty. -/
def anchorRange (st : Store) (query : Query) (field : String) (dir : Int) (skip : Int)
    (limit : Nat) : Except String (List Record) :=
  match st.findOne [] "Transaction ID" dir skip with
  | Except.error e => Except.error e
  | Except.ok none => Except.ok []
  | Except.ok (some anchorDoc) =>
    let lastId := anchorDoc.get "Transaction ID"
    let rangeQuery : Query :=
      if dir = -1 then query ++ [Clause.field "Transaction ID" (Cond.lt lastId)]
      else query ++ [Clause.field "Transaction ID" (Cond.gt lastId)]
    st.find rangeQuery field dir none limit

/-- Lines 128-168: the first fetch of `getSalesData`. -/
def fetchData (st : Store) (query : Query) (field : String) (dir : Int) (skip : Int)
    (limit : Nat) : Except String (List Record) :=
  if skip > 500000 then anchorRange st query field dir skip limit
  else directOffset st query field dir skip limit

/-- Lines 172-187: the total count of `getSalesData`. A failing
`countDocuments` is caught and replaced by the estimated count. -/
def countTotal (st : Store) (query : Query) : Except String Nat :=
  if Query.keyCount query = 0 then st.estimatedDocumentCount
  else
    match st.countDocuments query with
    | Except.ok n => Except.ok n
    | Except.error _ => st.estimatedDocumentCount

/-- `Math.ceil(a / b)` for non-negative integers `a` and `b >= 1`. (For `b = 0`
JavaScript gives `Infinity` or `NaN`, which the embedding does not represent.) -/
def ceilDiv (a b : Nat) : Nat := (a + b - 1) / b

/-- Lines 189 and 379: `Math.max(1, Math.ceil(totalRecords / limit))`. -/
def totalPagesOf (totalRecords limit : Nat) : Int :=
  max 1 (ceilDiv totalRecords limit : Int)

/-- Lines 190 and 380: `Math.min(Math.max(1, page), totalPages)`. -/
def validPageOf (page totalPages : Int) : Int :=
  min (max 1 page) totalPages

/-- The `try` block of `getSalesData` (lines 88-253); `Except.error` is a
thrown store error. -/
def getSalesDataTry (st : Store) (req : PageRequest) : Except String Response :=
  let skip : Int := (req.page - 1) * req.limit
  let filterQuery := buildFilterQuery req.filters
  let searchQuery := buildSearchQuery req.search
  let query := combineQuery filterQuery searchQuery
  let field := effectiveSortField req.sortBy
  let dir := sortDirection req.sortOrder
  match fetchData st query field dir skip req.limit with
  | Except.error e => Except.error e
  | Except.ok data =>
    match countTotal st query with
    | Except.error e => Except.error e
    | Except.ok totalRecords =>
      let totalPages := totalPagesOf totalRecords req.limit
      let validPage := validPageOf req.page totalPages
      if req.page > totalPages then
        Except.ok
          { data := [],
            pagination :=
              { currentPage := totalPages, totalPages := totalPages,
                totalRecords := totalRecords, pageSize := req.limit,
                hasNextPage := false, hasPreviousPage := decide (totalPages > 1) } }
      else
        let refetched :=
          if data.length = 0 ∧ validPage > 1 ∧ validPage ≤ totalPages then
            st.find query "Transaction ID" 1 (some skip) req.limit
          else Except.ok data
        match refetched with
        | Except.error e => Except.error e
        | Except.ok data2 =>
          Except.ok
            { data := data2.map project,
              pagination :=
                { currentPage := validPage, totalPages := totalPages,
                  totalRecords := totalRecords, pageSize := req.limit,
                  hasNextPage := decide (validPage < totalPages),
                  hasPreviousPage := decide (validPage > 1) } }

/-- `getSalesData` (lines 86-273): the `try` block, and the `catch` block that
turns a thrown error into a one-page response carrying its message. -/
def getSalesData (st : Store) (req : PageRequest) : Response :=
  match getSalesDataTry st req with
  | Except.ok result => result
  | Except.error message =>
    { data := [],
      pagination :=
        { currentPage := 1, totalPages := 1, totalRecords := 0, pageSize := req.limit,
          hasNextPage := false, hasPreviousPage := false },
      error := some message }

/-- Lines 293-362: the fetch of `getSalesDataOptimized`, rows already in
response shape. The chain `Sales.aggregate(...).maxTimeMS(...).allowDiskUse(...).exec()`
is taken as one store operation that the store answers or fails; a driver
layer that rejects a link of the chain before the pipeline runs is the case
`Except.error` of `st.aggregate`. -/
def optimizedFetch (st : Store) (query : Query) (skip : Int) (limit : Nat) :
    Except String (List Record) :=
  if skip > 100000 then
    st.aggregate (if Query.keyCount query > 0 then some query else none)
      "Transaction ID" 1 skip limit
  else
    match st.find query "Transaction ID" 1 (some skip) limit with
    | Except.error e => Except.error e
    | Except.ok data => Except.ok (data.map project)

/-- Lines 364-377: the count of `getSalesDataOptimized`; any failure gives the
literal 700000. -/
def optimizedCount (st : Store) (query : Query) : Nat :=
  match (if Query.keyCount query = 0 then st.estimatedDocumentCount
         else st.countDocuments query) with
  | Except.ok n => n
  | Except.error _ => 700000

/-- `getSalesDataOptimized` (lines 274-398); `Except.error` is the rethrown
error of its `catch` block. -/
def getSalesDataOptimized (st : Store) (req : PageRequest) : Except String Response :=
  let skip : Int := (req.page - 1) * req.limit
  let filterQuery := buildFilterQuery req.filters
  let searchQuery := buildSearchQuery req.search
  let query := combineQuery filterQuery searchQuery
  match optimizedFetch st query skip req.limit with
  | Except.error e => Except.error e
  | Except.ok data =>
    let totalRecords := optimizedCount st query
    let totalPages := totalPagesOf totalRecords req.limit
    let validPage := validPageOf req.page totalPages
    Except.ok
      { data := data,
        pagination :=
          { currentPage := validPage, totalPages := totalPages,
            totalRecords := totalRecords, pageSize := req.limit,
            hasNextPage := decide (validPage < totalPages),
            hasPreviousPage := decide (validPage > 1) } }

/-- The invariant of the pagination metadata: the current page lies within
`[1, totalPages]` and `hasNextPage` says whether a later page exists. -/
def Pagination.Consistent (p : Pagination) : Prop :=
  1 ≤ p.currentPage ∧ p.currentPage ≤ p.totalPages ∧
    p.hasNextPage = decide (p.currentPage < p.totalPages)

/-- A document that holds only the identifier `i`. -/
def idDoc (i : Nat) : Record := [("Transaction ID", Value.num i)]

/-- The collection of the documents with identifiers `1, ..., n`. -/
def idDocs (n : Nat) : List Record := (List.range' 1 n).map idDoc

/-! ## A reference regular-expression engine

The store matches `$regex` patterns with PCRE. The engine below covers the
patterns made of ordinary characters, escaped punctuation (`\.`), the wildcard
`.` and the alternation bar `|`, with the options `""` and `"i"`. It answers
`none` for any other pattern or option string. Under `"i"` letter case is
folded for the ASCII letters. -/

/-- One position of an alternative: a literal character or the wildcard. -/
inductive Atom where
  | lit (c : Char)
  | any
  deriving DecidableEq, Repr

/-- Put an atom in front of the first alternative. -/
def pushAtom (a : Atom) : List (List Atom) → List (List Atom)
  | [] => [[a]]
  | alt :: more => (a :: alt) :: more

/-- Read a pattern as the list of its alternatives. -/
def parseRegex : List Char → Option (List (List Atom))
  | [] => some [[]]
  | c :: rest =>
    if c = '\\' then
      match rest with
      | [] => none
      | d :: rest2 =>
        if d.isAlphanum then none else (parseRegex rest2).map (pushAtom (Atom.lit d))
    else if c = '|' then (parseRegex rest).map (fun alts => [] :: alts)
    else if c = '.' then (parseRegex rest).map (pushAtom Atom.any)
    else if c ∈ regexSpecials then none
    else (parseRegex rest).map (pushAtom (Atom.lit c))

/-- Whether an atom accepts a character; `ci` is the `i` option. The wildcard
accepts everything but a line feed. -/
def Atom.accepts (ci : Bool) : Atom → Char → Bool
  | Atom.lit a, c => if ci then a.toLower == c.toLower else a == c
  | Atom.any, c => c != '\n'

/-- Whether the atoms match a beginning of the subject. -/
def matchHere (ci : Bool) : List Atom → List Char → Bool
  | [], _ => true
  | _ :: _, [] => false
  | a :: as, c :: cs => a.accepts ci c && matchHere ci as cs

/-- Whether the atoms match somewhere in the subject (patterns are unanchored). -/
def matchAnywhere (ci : Bool) (atoms : List Atom) : List Char → Bool
  | [] => matchHere ci atoms []
  | c :: cs => matchHere ci atoms (c :: cs) || matchAnywhere ci atoms cs

/-- The verdict of the reference engine, `none` outside the covered patterns. -/
def regexTest (pattern options subject : String) : Option Bool :=
  if options = "i" ∨ options = "" then
    (parseRegex pattern.data).map
      (fun alts => alts.any (fun alt => matchAnywhere (options == "i") alt subject.data))
  else none

/-- The reference engine as a store engine: a match is a definite `some true`. -/
def fragmentEngine : RegexEngine :=
  fun pattern options subject => regexTest pattern options subject == some true

/-- Whether `tag` occurs in `s` as a literal substring, letter case ignored. -/
def occursIgnoringCase (tag s : String) : Prop :=
  tag.data.map Char.toLower <:+: s.data.map Char.toLower

instance (tag s : String) : Decidable (occursIgnoringCase tag s) := by
  unfold occursIgnoringCase; exact inferInstance

/-- The `filters` object of a request without any filter parameter. -/
def noFilters : Filters :=
  ⟨[], [], none, none, [], [], [], none, none⟩

/-- The integer that the decimal digits of a token spell, read in order with
every other character left out: `"a4b2"` gives 42. -/
def digitsNumber (token : String) : Nat :=
  Nat.ofDigits 10 ((token.data.filter Char.isDigit).reverse.map (fun c => c.toNat - 48))

/-- The condition a query object holds for the field `name`, if any. -/
def Query.fieldCond (q : Query) (name : String) : Option Cond :=
  match q with
  | [] => none
  | Clause.field n c :: rest => if n == name then some c else Query.fieldCond rest name
  | _ :: rest => Query.fieldCond rest name

/-! ## The store calls a request issues

The functions `...Run` below are the service functions once more, each
returning next to its result the list of the calls it made on the `Sales`
model, in order. Their results are those of the plain functions (theorems
`fetchDataRun_fst` to `getSalesDataOptimizedRun_fst`). -/

/-- One call on the `Sales` model, with its arguments. -/
inductive StoreCall where
  | find (query : Query) (field : String) (dir : Int) (skip : Option Int) (limit : Nat)
  | findOne (query : Query) (field : String) (dir : Int) (skip : Int)
  | estimatedDocumentCount
  | countDocuments (query : Query)
  | aggregate (stage : Option Query) (field : String) (dir : Int) (skip : Int) (limit : Nat)

/-- The sort direction a call asks for, if it sorts. -/
def StoreCall.dir : StoreCall → Option Int
  | StoreCall.find _ _ dir _ _ => some dir
  | StoreCall.findOne _ _ dir _ => some dir
  | StoreCall.aggregate _ _ dir _ _ => some dir
  | _ => none

/-- Whether a call is a `countDocuments`. -/
def StoreCall.isCountDocuments : StoreCall → Bool
  | StoreCall.countDocuments _ => true
  | _ => false

/-- Whether a call is a `find` that positions itself with `.skip(...)`. -/
def StoreCall.isFindWithSkip : StoreCall → Bool
  | StoreCall.find _ _ _ (some _) _ => true
  | _ => false

/-- Whether a call is the anchor lookup `findOne`. -/
def StoreCall.isFindOne : StoreCall → Bool
  | StoreCall.findOne _ _ _ _ => true
  | _ => false

/-- Whether a call is an aggregation pipeline. -/
def StoreCall.isAggregate : StoreCall → Bool
  | StoreCall.aggregate _ _ _ _ _ => true
  | _ => false

/-- `directOffset` with its calls. -/
def directOffsetRun (st : Store) (query : Query) (field : String) (dir : Int) (skip : Int)
    (limit : Nat) : Except String (List Record) × List StoreCall :=
  (st.find query field dir (some skip) limit, [StoreCall.find query field dir (some skip) limit])

/-- `anchorRange` with its calls. -/
def anchorRangeRun (st : Store) (query : Query) (field : String) (dir : Int) (skip : Int)
    (limit : Nat) : Except String (List Record) × List StoreCall :=
  match st.findOne [] "Transaction ID" dir skip with
  | Except.error e => (Except.error e, [StoreCall.findOne [] "Transaction ID" dir skip])
  | Except.ok none => (Except.ok [], [StoreCall.findOne [] "Transaction ID" dir skip])
  | Except.ok (some anchorDoc) =>
    let lastId := anchorDoc.get "Transaction ID"
    let rangeQuery : Query :=
      if dir = -1 then query ++ [Clause.field "Transaction ID" (Cond.lt lastId)]
      else query ++ [Clause.field "Transaction ID" (Cond.gt lastId)]
    (st.find rangeQuery field dir none limit,
      [StoreCall.findOne [] "Transaction ID" dir skip,
       StoreCall.find rangeQuery field dir none limit])

/-- `fetchData` (lines 128-168) with its calls. -/
def fetchDataRun (st : Store) (query : Query) (field : String) (dir : Int) (skip : Int)
    (limit : Nat) : Except String (List Record) × List StoreCall :=
  if skip > 500000 then anchorRangeRun st query field dir skip limit
  else directOffsetRun st query field dir skip limit

/-- `countTotal` (lines 172-187) with its calls. -/
def countTotalRun (st : Store) (query : Query) : Except String Nat × List StoreCall :=
  if Query.keyCount query = 0 then
    (st.estimatedDocumentCount, [StoreCall.estimatedDocumentCount])
  else
    match st.countDocuments query with
    | Except.ok n => (Except.ok n, [StoreCall.countDocuments query])
    | Except.error _ =>
      (st.estimatedDocumentCount,
        [StoreCall.countDocuments query, StoreCall.estimatedDocumentCount])

/-- `getSalesDataTry` (lines 88-253) with its calls; the last call, when the
condition of line 211 holds, is the fallback fetch of lines 215-221. -/
def getSalesDataTryRun (st : Store) (req : PageRequest) :
    Except String Response × List StoreCall :=
  let skip : Int := (req.page - 1) * req.limit
  let filterQuery := buildFilterQuery req.filters
  let searchQuery := buildSearchQuery req.search
  let query := combineQuery filterQuery searchQuery
  let field := effectiveSortField req.sortBy
  let dir := sortDirection req.sortOrder
  match fetchDataRun st query field dir skip req.limit with
  | (Except.error e, calls) => (Except.error e, calls)
  | (Except.ok data, calls) =>
    match countTotalRun st query with
    | (Except.error e, calls2) => (Except.error e, calls ++ calls2)
    | (Except.ok totalRecords, calls2) =>
      let totalPages := totalPagesOf totalRecords req.limit
      let validPage := validPageOf req.page totalPages
      if req.page > totalPages then
        (Except.ok
          { data := [],
            pagination :=
              { currentPage := totalPages, totalPages := totalPages,
                totalRecords := totalRecords, pageSize := req.limit,
                hasNextPage := false, hasPreviousPage := decide (totalPages > 1) } },
          calls ++ calls2)
      else if data.length = 0 ∧ validPage > 1 ∧ validPage ≤ totalPages then
        match st.find query "Transaction ID" 1 (some skip) req.limit with
        | Except.error e =>
          (Except.error e,
            calls ++ calls2 ++ [StoreCall.find query "Transaction ID" 1 (some skip) req.limit])
        | Except.ok data2 =>
          (Except.ok
            { data := data2.map project,
              pagination :=
                { currentPage := validPage, totalPages := totalPages,
                  totalRecords := totalRecords, pageSize := req.limit,
                  hasNextPage := decide (validPage < totalPages),
                  hasPreviousPage := decide (validPage > 1) } },
            calls ++ calls2 ++ [StoreCall.find query "Transaction ID" 1 (some skip) req.limit])
      else
        (Except.ok
          { data := data.map project,
            pagination :=
              { currentPage := validPage, totalPages := totalPages,
                totalRecords := totalRecords, pageSize := req.limit,
                hasNextPage := decide (validPage < totalPages),
                hasPreviousPage := decide (validPage > 1) } },
          calls ++ calls2)

/-- `getSalesData` (lines 86-273) with its calls. -/
def getSalesDataRun (st : Store) (req : PageRequest) : Response × List StoreCall :=
  match getSalesDataTryRun st req with
  | (Except.ok result, calls) => (result, calls)
  | (Except.error message, calls) =>
    ({ data := [],
       pagination :=
         { currentPage := 1, totalPages := 1, totalRecords := 0, pageSize := req.limit,
           hasNextPage := false, hasPreviousPage := false },
       error := some message }, calls)

/-- `optimizedFetch` (lines 293-362) with its calls. -/
def optimizedFetchRun (st : Store) (query : Query) (skip : Int) (limit : Nat) :
    Except String (List Record) × List StoreCall :=
  if skip > 100000 then
    (st.aggregate (if Query.keyCount query > 0 then some query else none)
        "Transaction ID" 1 skip limit,
      [StoreCall.aggregate (if Query.keyCount query > 0 then some query else none)
        "Transaction ID" 1 skip limit])
  else
    match st.find query "Transaction ID" 1 (some skip) limit with
    | Except.error e =>
      (Except.error e, [StoreCall.find query "Transaction ID" 1 (some skip) limit])
    | Except.ok data =>
      (Except.ok (data.map project), [StoreCall.find query "Transaction ID" 1 (some skip) limit])

/-- The count of `getSalesDataOptimized` (lines 364-377) with its calls. -/
def optimizedCountRun (st : Store) (query : Query) : Nat × List StoreCall :=
  if Query.keyCount query = 0 then
    (match st.estimatedDocumentCount with
      | Except.ok n => n
      | Except.error _ => 700000,
     [StoreCall.estimatedDocumentCount])
  else
    (match st.countDocuments query with
      | Except.ok n => n
      | Except.error _ => 700000,
     [StoreCall.countDocuments query])

/-- `getSalesDataOptimized` (lines 274-398) with its calls. -/
def getSalesDataOptimizedRun (st : Store) (req : PageRequest) :
    Except String Response × List StoreCall :=
  let skip : Int := (req.page - 1) * req.limit
  let filterQuery := buildFilterQuery req.filters
  let searchQuery := buildSearchQuery req.search
  let query := combineQuery filterQuery searchQuery
  match optimizedFetchRun st query skip req.limit with
  | (Except.error e, calls) => (Except.error e, calls)
  | (Except.ok data, calls) =>
    let totalRecords := (optimizedCountRun st query).1
    let totalPages := totalPagesOf totalRecords req.limit
    let validPage := validPageOf req.page totalPages
    (Except.ok
      { data := data,
        pagination :=
          { currentPage := validPage, totalPages := totalPages,
            totalRecords := totalRecords, pageSize := req.limit,
            hasNextPage := decide (validPage < totalPages),
            hasPreviousPage := decide (validPage > 1) } },
      calls ++ (optimizedCountRun st query).2)

/-- The body of the request layer's reply. -/
inductive HttpBody where
  /-- `res.json(result)` -/
  | page (result : Response)
  /-- `res.status(500).json({ error, message })` -/
  | failure (error message : String)
  deriving DecidableEq, Repr

/-- An HTTP reply. -/
structure HttpReply where
  status : Nat
  body : HttpBody
  deriving DecidableEq, Repr

/-- `getSales` (salesController.js, lines 3-51). `coerced` is the outcome of
lines 5-32, which read the query string into the argument of `getSalesData`
(`Except.error` when that code throws). The result of `getSalesData` is sent
with `res.json`, whose status is 200. -/
def getSales (st : Store) (coerced : Except String PageRequest) : HttpReply :=
  match coerced with
  | Except.ok req => { status := 200, body := HttpBody.page (getSalesData st req) }
  | Except.error message =>
    { status := 500, body := HttpBody.failure "Internal server error" message }

/-- Line 10 of salesController.js: `sortOrder = 'desc'` in the destructuring
of `req.query`; the default stands in for an absent parameter only. -/
def sortOrderParam (raw : Option String) : String :=
  raw.getD "desc"

/-! ## The filter options and their cache -/

/-- JavaScript truthiness of a stored value. -/
def Value.truthy : Value → Bool
  | Value.null => false
  | Value.num n => n != 0
  | Value.inf => true
  | Value.str s => s != ""

/-- `String(v)`, the key of the default `Array.prototype.sort`. -/
def Value.jsString : Value → String
  | Value.null => "null"
  | Value.num n => toString n
  | Value.inf => "Infinity"
  | Value.str s => s

/-- The `ageRange` object of the filter options. -/
structure AgeRange where
  min : Value
  max : Value
  deriving DecidableEq, Repr

/-- The snapshot that `getFilterOptions` builds and caches. -/
structure FilterOptions where
  customerRegions : List Value
  genders : List Value
  productCategories : List Value
  paymentMethods : List Value
  tags : List String
  ageRange : AgeRange
  deriving DecidableEq, Repr

/-- The operations `getFilterOptions` calls on the `Sales` model. -/
structure OptionsStore where
  /-- `Sales.distinct(field)` -/
  distinct : String → Except String (List Value)
  /-- the `$group` aggregation of lines 499-507: rows `(minAge, maxAge)` -/
  ageAggregate : Except String (List (Value × Value))
  /-- the `$match`/`$sample`/`$project` aggregation of lines 510-514 -/
  tagSample : Except String (List Record)

/-- One call of `getFilterOptions` on the `Sales` model. -/
inductive OptionsCall where
  | distinct (field : String)
  | ageAggregate
  | tagSample
  deriving DecidableEq, Repr

/-- The module variables `filterOptionsCache` and `lastCacheUpdate` (lines 3-4). -/
structure CacheState where
  filterOptionsCache : Option FilterOptions
  lastCacheUpdate : Int
  deriving DecidableEq, Repr

/-- Line 5: `5 * 60 * 1000` milliseconds. -/
def CACHE_DURATION : Int := 5 * 60 * 1000

/-- The comparison `a.localeCompare(b)` of the runtime: negative, zero or
positive. -/
abbrev Collation := String → String → Int

/-- `str.split(',')` on the characters of a string. -/
def splitOnComma : List Char → List (List Char)
  | [] => [[]]
  | c :: cs =>
    if c = ',' then [] :: splitOnComma cs
    else
      match splitOnComma cs with
      | [] => [[c]]
      | seg :: more => (c :: seg) :: more

/-- Lines 520-522: split on commas, trim, keep the non-empty pieces. -/
def tagSegments (s : String) : List String :=
  ((splitOnComma s.data).map (fun seg => jsTrim ⟨seg⟩)).filter (fun tag => tag.length > 0)

/-- `tagsSet.add(tag)`: a `Set` keeps its members in insertion order. -/
def setAdd (tagsSet : List String) (tag : String) : List String :=
  if tag ∈ tagsSet then tagsSet else tagsSet ++ [tag]

/-- Lines 517-525: the set of tags of the sampled documents. A document
counts when its `Tags` is a non-empty string. -/
def collectTags (tagsResult : List Record) : List String :=
  tagsResult.foldl
    (fun tagsSet item =>
      match item.get "Tags" with
      | Value.str s => if s != "" then (tagSegments s).foldl setAdd tagsSet else tagsSet
      | _ => tagsSet)
    []

/-- Lines 528-530: `Array.from(tagsSet).sort((a, b) => a.localeCompare(b)).slice(0, 100)`.
The sort is stable. -/
def tagVocabulary (cmp : Collation) (tagsResult : List Record) : List String :=
  ((collectTags tagsResult).insertionSort (fun a b => cmp a b ≤ 0)).take 100

/-- Lines 539-542: `values.filter(Boolean).sort()`. The default sort compares
the strings by UTF-16 code units; the order here is by code points, which is
the same order for strings of the Basic Multilingual Plane. -/
def facetValues (values : List Value) : List Value :=
  (values.filter Value.truthy).insertionSort
    (fun a b => lexLe a.jsString.data b.jsString.data = true)

/-- Lines 533-536: the age range of the first aggregation row, with the
defaults 0 and 100. -/
def ageRangeOf (rows : List (Value × Value)) : AgeRange :=
  match rows with
  | [] => { min := Value.num 0, max := Value.num 100 }
  | row :: _ =>
    { min := if row.1.truthy then row.1 else Value.num 0,
      max := if row.2.truthy then row.2 else Value.num 100 }

/-- The four `distinct` calls that `Promise.all` starts together (lines 484-496). -/
def distinctCalls : List OptionsCall :=
  [OptionsCall.distinct "Customer Region", OptionsCall.distinct "Gender",
   OptionsCall.distinct "Product Category", OptionsCall.distinct "Payment Method"]

/-- Lines 473-545: the recomputation of the snapshot, with the calls made.
`Except.error` is a thrown store error; a rejected `distinct` rejects the
`Promise.all`, and nothing after it runs. -/
def recomputeOptions (cmp : Collation) (st : OptionsStore) :
    Except String FilterOptions × List OptionsCall :=
  match st.distinct "Customer Region" with
  | Except.error e => (Except.error e, distinctCalls)
  | Except.ok customerRegions =>
    match st.distinct "Gender" with
    | Except.error e => (Except.error e, distinctCalls)
    | Except.ok genders =>
      match st.distinct "Product Category" with
      | Except.error e => (Except.error e, distinctCalls)
      | Except.ok productCategories =>
        match st.distinct "Payment Method" with
        | Except.error e => (Except.error e, distinctCalls)
        | Except.ok paymentMethods =>
          match st.ageAggregate with
          | Except.error e => (Except.error e, distinctCalls ++ [OptionsCall.ageAggregate])
          | Except.ok ageRangeResult =>
            match st.tagSample with
            | Except.error e =>
              (Except.error e,
                distinctCalls ++ [OptionsCall.ageAggregate, OptionsCall.tagSample])
            | Except.ok tagsResult =>
              (Except.ok
                { customerRegions := facetValues customerRegions,
                  genders := facetValues genders,
                  productCategories := facetValues productCategories,
                  paymentMethods := facetValues paymentMethods,
                  tags := tagVocabulary cmp tagsResult,
                  ageRange := ageRangeOf ageRangeResult },
                distinctCalls ++ [OptionsCall.ageAggregate, OptionsCall.tagSample])

/-- Lines 563-570: the snapshot returned when the recomputation throws. -/
def emptyOptions : FilterOptions :=
  { customerRegions := [], genders := [], productCategories := [], paymentMethods := [],
    tags := [], ageRange := { min := Value.num 0, max := Value.num 100 } }

/-- `getFilterOptions` (lines 466-572) as a step on the cache: the time
`now = Date.now()` and the cache before, to the snapshot returned, the cache
after, and the store calls made. -/
def getFilterOptions (cmp : Collation) (st : OptionsStore) (now : Int) (cache : CacheState) :
    FilterOptions × CacheState × List OptionsCall :=
  match cache.filterOptionsCache with
  | some snapshot =>
    if now - cache.lastCacheUpdate < CACHE_DURATION then (snapshot, cache, [])
    else
      match recomputeOptions cmp st with
      | (Except.ok options, calls) =>
        (options, { filterOptionsCache := some options, lastCacheUpdate := now }, calls)
      | (Except.error _, calls) => (emptyOptions, cache, calls)
  | none =>
    match recomputeOptions cmp st with
    | (Except.ok options, calls) =>
      (options, { filterOptionsCache := some options, lastCacheUpdate := now }, calls)
    | (Except.error _, calls) => (emptyOptions, cache, calls)

/-! ## Stores that fail -/

/-- The reference store with an exact count that always times out. -/
def countTimeoutStore (rx : RegexEngine) (docs : List Record) : Store :=
  { listStore rx docs with
    countDocuments := fun _ => Except.error "operation exceeded time limit" }

/-- A store that cannot be reached: every operation fails with the driver's
message. -/
def unreachableStore : Store where
  find := fun _ _ _ _ _ => Except.error "connect ECONNREFUSED 10.0.0.5:27017"
  findOne := fun _ _ _ _ => Except.error "connect ECONNREFUSED 10.0.0.5:27017"
  estimatedDocumentCount := Except.error "connect ECONNREFUSED 10.0.0.5:27017"
  countDocuments := fun _ => Except.error "connect ECONNREFUSED 10.0.0.5:27017"
  aggregate := fun _ _ _ _ _ => Except.error "connect ECONNREFUSED 10.0.0.5:27017"

/-- An options store over fixed answers: three regions, the ages 18 to
65, and two sampled tag strings. -/
def sampleOptionsStore : OptionsStore where
  distinct := fun field =>
    if field = "Customer Region" then
      Except.ok [Value.str "West", Value.str "East", Value.null]
    else Except.ok []
  ageAggregate := Except.ok [(Value.num 18, Value.num 65)]
  tagSample := Except.ok [[("Tags", Value.str "organic, gift")], [("Tags", Value.str "gift,new")]]

/-- The same store with a tag sample that times out. -/
def tagTimeoutStore : OptionsStore :=
  { sampleOptionsStore with tagSample := Except.error "operation exceeded time limit" }

/-- Comparison of strings by code points, as a collation. -/
def codePointCompare : Collation :=
  fun a b => if lexLe a.data b.data then (if lexLe b.data a.data then 0 else -1) else 1

/-! ## The tag vocabulary as the specification words it -/

/-- The comma-separated pieces of the given strings, trimmed, the empty ones
left out. -/
def trimmedSegments (strings : List String) : List String :=
  (strings.flatMap (fun s => (splitOnComma s.data).map (fun seg => jsTrim ⟨seg⟩))).filter
    (fun t => t ≠ "")

/-- The vocabulary in the specification's words: the distinct trimmed
non-empty pieces, sorted by the collation, cut to the first 100. -/
def tagVocabularySpec (cmp : Collation) (strings : List String) : List String :=
  ((trimmedSegments strings).dedup.insertionSort (fun a b => cmp a b ≤ 0)).take 100

/-- The sampled documents that carry the given tag strings. -/
def tagDocs (strings : List String) : List Record :=
  strings.map (fun s => [("Tags", Value.str s)])

/-- A store whose counts are stale: it reports `total` documents, and every
fetch comes back empty. -/
def staleCountStore (total : Nat) : Store where
  find := fun _ _ _ _ _ => Except.ok []
  findOne := fun _ _ _ _ => Except.ok none
  estimatedDocumentCount := Except.ok total
  countDocuments := fun _ => Except.ok total
  aggregate := fun _ _ _ _ _ => Except.ok []

/-! ## Pagination metadata -/

theorem one_le_totalPagesOf (totalRecords limit : Nat) : 1 ≤ totalPagesOf totalRecords limit :=
  le_max_left _ _

theorem validPageOf_bounds (page totalPages : Int) (h : 1 ≤ totalPages) :
    1 ≤ validPageOf page totalPages ∧ validPageOf page totalPages ≤ totalPages := by
  unfold validPageOf
  exact ⟨le_min (le_max_left _ _) h, min_le_right _ _⟩

theorem consistent_of_validPage (page : Int) (totalRecords limit : Nat) (b : Bool) :
    Pagination.Consistent
      { currentPage := validPageOf page (totalPagesOf totalRecords limit),
        totalPages := totalPagesOf totalRecords limit,
        totalRecords := totalRecords, pageSize := limit,
        hasNextPage := decide (validPageOf page (totalPagesOf totalRecords limit)
          < totalPagesOf totalRecords limit),
        hasPreviousPage := b } := by
  have h := validPageOf_bounds page _ (one_le_totalPagesOf totalRecords limit)
  exact ⟨h.1, h.2, rfl⟩

theorem getSalesData_consistent (st : Store) (req : PageRequest) :
    (getSalesData st req).pagination.Consistent := by
  unfold getSalesData getSalesDataTry
  simp only []
  split
  · rename_i result hres
    split at hres
    · cases hres
    · split at hres
      · cases hres
      · rename_i totalRecords _
        split at hres
        · cases hres
          refine ⟨one_le_totalPagesOf _ _, le_refl _, ?_⟩
          simp
        · split at hres
          · cases hres
          · cases hres
            exact consistent_of_validPage _ _ _ _
  · refine ⟨le_refl _, le_refl _, ?_⟩
    simp

/-- C1. For every integer page, every limit >= 1 and every store: the
pagination metadata of `getSalesData` (normal, page-beyond-end and error
paths alike) has `1 <= currentPage <= totalPages` and
`hasNextPage = (currentPage < totalPages)`; so has every response that
`getSalesDataOptimized` returns, and it returns one whenever its fetch
succeeds. -/
theorem pagination_consistent (st : Store) (req : PageRequest) (hlimit : 1 ≤ req.limit) :
    (getSalesData st req).pagination.Consistent ∧
    (∀ r, getSalesDataOptimized st req = Except.ok r → r.pagination.Consistent) ∧
    (∀ data,
      optimizedFetch st (combineQuery (buildFilterQuery req.filters) (buildSearchQuery req.search))
        ((req.page - 1) * req.limit) req.limit = Except.ok data →
      ∃ r, getSalesDataOptimized st req = Except.ok r ∧ r.data = data) := by
  have _ := hlimit
  refine ⟨getSalesData_consistent st req, ?_, ?_⟩
  · intro r hr
    unfold getSalesDataOptimized at hr
    simp only [] at hr
    split at hr
    · cases hr
    · cases hr
      exact consistent_of_validPage _ _ _ _
  · intro data hdata
    unfold getSalesDataOptimized
    simp only [hdata]
    exact ⟨_, rfl, rfl⟩

/-! ## The reference store on a collection in identifier order -/

theorem get_idDoc (i : Nat) : Record.get (idDoc i) "Transaction ID" = Value.num i := rfl

theorem docLe_idDoc {a b : Nat} (h : a ≤ b) :
    docLe "Transaction ID" 1 (idDoc a) (idDoc b) := by
  have h2 : (a : Int) ≤ b := by exact_mod_cast h
  simp [docLe, get_idDoc, Value.sortLe, Value.rank, Value.leSame, h2]

theorem sortDocs_map_idDoc (s n : Nat) :
    sortDocs "Transaction ID" 1 ((List.range' s n).map idDoc) = (List.range' s n).map idDoc := by
  unfold sortDocs
  apply List.Sorted.insertionSort_eq
  unfold List.Sorted
  rw [List.pairwise_map]
  exact (List.pairwise_lt_range' s n).imp (fun h => docLe_idDoc (Nat.le_of_lt h))

theorem filter_universal (rx : RegexEngine) (docs : List Record) :
    docs.filter (fun r => Query.sat rx r []) = docs := by
  simp [Query.sat]

theorem drop_range' (k s n : Nat) : (List.range' s n).drop k = List.range' (s + k) (n - k) := by
  induction k generalizing s n with
  | zero => simp
  | succ k ih =>
    cases n with
    | zero => simp
    | succ n =>
      rw [List.range'_succ, List.drop_succ_cons, ih]
      congr 1 <;> omega

theorem filter_gt_range' (a n : Nat) (h : a ≤ n) :
    (List.range' 1 n).filter (fun i => decide (a < i)) = List.range' (a + 1) (n - a) := by
  have hsplit : List.range' 1 n = List.range' 1 a ++ List.range' (1 + a) (n - a) := by
    rw [List.range'_append_1]
    congr 1
    omega
  rw [hsplit, List.filter_append]
  have h1 : (List.range' 1 a).filter (fun i => decide (a < i)) = [] := by
    rw [List.filter_eq_nil_iff]
    intro i hi
    rw [List.mem_range'_1] at hi
    simp
    omega
  have h2 : (List.range' (1 + a) (n - a)).filter (fun i => decide (a < i))
      = List.range' (1 + a) (n - a) := by
    rw [List.filter_eq_self]
    intro i hi
    rw [List.mem_range'_1] at hi
    simp
    omega
  rw [h1, h2, List.nil_append, Nat.add_comm]

theorem filter_gt_idDocs (rx : RegexEngine) (a n : Nat) (h : a ≤ n) :
    (idDocs n).filter
        (fun r => Query.sat rx r [Clause.field "Transaction ID" (Cond.gt (Value.num a))])
      = (List.range' (a + 1) (n - a)).map idDoc := by
  unfold idDocs
  rw [List.filter_map, ← filter_gt_range' a n h]
  congr 1
  apply List.filter_congr
  intro i _
  simp [Query.sat, Clause.sat, Cond.sat, get_idDoc, Value.ltSame]

/-- On the collection with identifiers `1..n`, ascending, without a predicate:
the direct-offset fetch at offset `k` starts at identifier `k + 1`. -/
theorem directOffset_idDocs (rx : RegexEngine) (n k limit : Nat) :
    directOffset (listStore rx (idDocs n)) [] "Transaction ID" 1 (k : Int) limit
      = Except.ok (window ((List.range' (k + 1) (n - k)).map idDoc) 0 limit) := by
  simp only [directOffset, listStore, filter_universal]
  rw [if_neg (by omega)]
  simp only [idDocs, sortDocs_map_idDoc, window, Int.toNat_ofNat, List.drop_zero,
    ← List.map_drop, drop_range', Nat.add_comm]

/-- On the same collection the anchor-range fetch at offset `k < n` starts at
identifier `k + 2`: the anchor is the document at position `k`, and the strict
bound leaves it out. -/
theorem anchorRange_idDocs (rx : RegexEngine) (n k limit : Nat) (hk : k < n) :
    anchorRange (listStore rx (idDocs n)) [] "Transaction ID" 1 (k : Int) limit
      = Except.ok (window ((List.range' (k + 2) (n - (k + 1))).map idDoc) 0 limit) := by
  have hanchor : (listStore rx (idDocs n)).findOne [] "Transaction ID" 1 (k : Int)
      = Except.ok (some (idDoc (k + 1))) := by
    simp only [listStore, filter_universal]
    rw [if_neg (by omega)]
    simp only [idDocs, sortDocs_map_idDoc, Int.toNat_ofNat, ← List.map_drop, drop_range']
    have hpos : n - k = (n - k - 1) + 1 := by omega
    rw [hpos, List.range'_succ]
    simp [idDoc, Record.get, Nat.add_comm]
  unfold anchorRange
  rw [hanchor]
  simp only [get_idDoc]
  rw [if_neg (by decide)]
  simp only [listStore, List.nil_append]
  rw [filter_gt_idDocs rx (k + 1) n hk, sortDocs_map_idDoc]

theorem countTotal_listStore_nil (rx : RegexEngine) (docs : List Record) :
    countTotal (listStore rx docs) [] = Except.ok docs.length := by
  simp [countTotal, listStore, Query.keyCount]

theorem length_idDocs (n : Nat) : (idDocs n).length = n := by
  simp [idDocs]

/-! ## Anchor-range against direct offset -/

theorem window_one_map_idDoc (s m : Nat) (hm : 0 < m) :
    window ((List.range' s m).map idDoc) 0 1 = [idDoc s] := by
  obtain ⟨j, rfl⟩ : ∃ j, m = j + 1 := ⟨m - 1, by omega⟩
  simp [window, List.range'_succ]

theorem fetchData_idDocs_deep (rx : RegexEngine) (n k : Nat) (hdeep : 500000 < k)
    (hkn : k + 1 < n) :
    fetchData (listStore rx (idDocs n)) [] "Transaction ID" 1 (k : Int) 1
      = Except.ok [idDoc (k + 2)] := by
  unfold fetchData
  rw [if_pos (by omega), anchorRange_idDocs rx n k 1 (by omega),
    window_one_map_idDoc _ _ (by omega)]

theorem directOffset_idDocs_one (rx : RegexEngine) (n k : Nat) (hkn : k < n) :
    directOffset (listStore rx (idDocs n)) [] "Transaction ID" 1 (k : Int) 1
      = Except.ok [idDoc (k + 1)] := by
  rw [directOffset_idDocs, window_one_map_idDoc _ _ (by omega)]

theorem totalPagesOf_one (n : Nat) (hn : 0 < n) : totalPagesOf n 1 = n := by
  unfold totalPagesOf ceilDiv
  simp
  omega

/-- Page `k + 1` of size 1, ascending identifier order, no filter and no
search, on the collection with identifiers `1..n`, at an offset `k` beyond
500000: `getSalesData` answers with the row of identifier `k + 2`. -/
theorem getSalesData_idDocs_deep (rx : RegexEngine) (n k : Nat) (hdeep : 500000 < k)
    (hkn : k + 1 < n) :
    (getSalesData (listStore rx (idDocs n))
        ⟨(k : Int) + 1, 1, "", "id", "asc", noFilters⟩).data = [project (idDoc (k + 2))] := by
  have hquery : combineQuery (buildFilterQuery noFilters) (buildSearchQuery "") = [] := rfl
  have hfield : effectiveSortField "id" = "Transaction ID" := by decide
  have hdir : sortDirection "asc" = 1 := by decide
  have hskip : ((k : Int) + 1 - 1) * ((1 : Nat) : Int) = (k : Int) := by push_cast; ring
  have hvalid : validPageOf ((k : Int) + 1) (n : Int) = (k : Int) + 1 := by
    unfold validPageOf
    rw [max_eq_right (by omega), min_eq_left (by omega)]
  unfold getSalesData getSalesDataTry
  simp only [hquery, hfield, hdir, hskip, fetchData_idDocs_deep rx n k hdeep hkn,
    countTotal_listStore_nil, length_idDocs, totalPagesOf_one n (by omega), hvalid]
  rw [if_neg (by omega), if_neg (by simp)]
  rfl

/-- C2 (the code departs from the claim). Collection with identifiers
`1..500003`, no filter, no search, ascending identifier order, page 500002 of
size 1, so offset 500001: the first fetch of `getSalesData` takes the
anchor-range branch and yields the document 500003, the direct-offset
procedure on the same store, query, sort, offset and size yields the document
500002, and the response of `getSalesData` carries the row of 500003. -/
theorem anchor_range_skips_page_head (rx : RegexEngine) :
    fetchData (listStore rx (idDocs 500003)) [] "Transaction ID" 1 500001 1
      = Except.ok [idDoc 500003] ∧
    directOffset (listStore rx (idDocs 500003)) [] "Transaction ID" 1 500001 1
      = Except.ok [idDoc 500002] ∧
    (getSalesData (listStore rx (idDocs 500003))
        ⟨500002, 1, "", "id", "asc", noFilters⟩).data = [project (idDoc 500003)] :=
  ⟨fetchData_idDocs_deep rx 500003 500001 (by decide) (by decide),
   directOffset_idDocs_one rx 500003 500001 (by decide),
   getSalesData_idDocs_deep rx 500003 500001 (by decide) (by decide)⟩

/-! ## A page beyond the last one -/

/-- For `b >= 1`, `ceilDiv a b` is the least `m` with `a <= m * b`, that is
the ceiling of `a / b`. -/
theorem ceilDiv_least (a b : Nat) (hb : 1 ≤ b) :
    a ≤ ceilDiv a b * b ∧ ∀ m, a ≤ m * b → ceilDiv a b ≤ m := by
  unfold ceilDiv
  constructor
  · have h := Nat.lt_div_mul_add (a := a + b - 1) hb
    omega
  · intro m hm
    have h1 : a + b - 1 < (m + 1) * b := by
      rw [Nat.add_mul]
      omega
    exact Nat.lt_succ_iff.mp ((Nat.div_lt_iff_lt_mul hb).mpr h1)

theorem anchorRange_listStore_beyond (rx : RegexEngine) (docs : List Record) (query : Query)
    (field : String) (dir : Int) (k limit : Nat) (hk : docs.length ≤ k) :
    anchorRange (listStore rx docs) query field dir (k : Int) limit = Except.ok [] := by
  have hnone : (listStore rx docs).findOne [] "Transaction ID" dir (k : Int)
      = Except.ok none := by
    simp only [listStore, filter_universal]
    rw [if_neg (by omega)]
    have hdrop : (sortDocs "Transaction ID" dir docs).drop (k : Int).toNat = [] := by
      apply List.drop_eq_nil_of_le
      simp only [sortDocs, List.length_insertionSort, Int.toNat_ofNat]
      exact hk
    rw [hdrop]
    rfl
  unfold anchorRange
  rw [hnone]

/-- C3. When the first fetch and the count succeed and the requested page
exceeds `totalPages = max(1, ceil(totalRecords / limit))`, `getSalesData`
returns no records, `currentPage = totalPages`, `hasNextPage = false`,
`hasPreviousPage = (totalPages > 1)` and no error field. -/
theorem page_beyond_last (st : Store) (req : PageRequest) (hlimit : 1 ≤ req.limit)
    (data : List Record) (totalRecords : Nat)
    (hfetch : fetchData st (combineQuery (buildFilterQuery req.filters) (buildSearchQuery req.search))
      (effectiveSortField req.sortBy) (sortDirection req.sortOrder)
      ((req.page - 1) * req.limit) req.limit = Except.ok data)
    (hcount : countTotal st (combineQuery (buildFilterQuery req.filters) (buildSearchQuery req.search))
      = Except.ok totalRecords)
    (hpage : req.page > totalPagesOf totalRecords req.limit) :
    getSalesData st req =
      { data := [],
        pagination :=
          { currentPage := totalPagesOf totalRecords req.limit,
            totalPages := totalPagesOf totalRecords req.limit,
            totalRecords := totalRecords,
            pageSize := req.limit,
            hasNextPage := false,
            hasPreviousPage := decide (totalPagesOf totalRecords req.limit > 1) },
        error := none } := by
  have _ := hlimit
  unfold getSalesData getSalesDataTry
  simp only [hfetch, hcount]
  rw [if_pos hpage]

theorem fetchData_idDocs_beyond (rx : RegexEngine) (n k : Nat) (field : String) (dir : Int)
    (limit : Nat) (hdeep : 500000 < k) (hkn : n ≤ k) :
    fetchData (listStore rx (idDocs n)) [] field dir (k : Int) limit = Except.ok [] := by
  unfold fetchData
  rw [if_pos (by omega)]
  exact anchorRange_listStore_beyond rx _ _ _ _ _ _ (by rw [length_idDocs]; exact hkn)

/-- C3, the scenario of the specification: page 999999 with limit 10 over
700000 records gives an empty page with `currentPage = totalPages = 70000`. -/
theorem page_beyond_last_witness :
    getSalesData (listStore fragmentEngine (idDocs 700000))
        ⟨999999, 10, "", "date", "desc", noFilters⟩ =
      { data := [],
        pagination :=
          { currentPage := 70000, totalPages := 70000, totalRecords := 700000, pageSize := 10,
            hasNextPage := false, hasPreviousPage := true },
        error := none } :=
  page_beyond_last (listStore fragmentEngine (idDocs 700000))
    ⟨999999, 10, "", "date", "desc", noFilters⟩ (by decide) [] 700000
    (fetchData_idDocs_beyond fragmentEngine 700000 9999980 _ _ _ (by decide) (by decide))
    ((countTotal_listStore_nil fragmentEngine (idDocs 700000)).trans
      (congrArg Except.ok (length_idDocs 700000)))
    (by decide)

/-- C1 at a concrete request: page 7 of size 2 on a three-document store. -/
theorem pagination_consistent_witness :
    (getSalesData (listStore fragmentEngine (idDocs 3))
        ⟨7, 2, "", "id", "asc", noFilters⟩).pagination.Consistent :=
  (pagination_consistent (listStore fragmentEngine (idDocs 3))
    ⟨7, 2, "", "id", "asc", noFilters⟩ (by decide)).1

/-! ## The filter predicate without any filter -/

/-- C4. With the five facet lists empty and no age or date bound,
`buildFilterQuery` returns the object without entries, which every document
satisfies. -/
theorem empty_filters_universal (f : Filters)
    (hregion : f.customerRegion = []) (hgender : f.gender = [])
    (hcategory : f.productCategory = []) (htags : f.tags = [])
    (hpayment : f.paymentMethod = [])
    (hmin : f.minAge = none) (hmax : f.maxAge = none)
    (hstart : f.startDate = none) (hend : f.endDate = none) :
    buildFilterQuery f = [] ∧
      ∀ (rx : RegexEngine) (r : Record), Query.sat rx r (buildFilterQuery f) = true := by
  obtain ⟨region, gender, minAge, maxAge, category, tags, payment, startDate, endDate⟩ := f
  simp only at hregion hgender hcategory htags hpayment hmin hmax hstart hend
  subst hregion hgender hcategory htags hpayment hmin hmax hstart hend
  exact ⟨rfl, fun _ _ => rfl⟩

/-- C4 at the request without filter parameters. -/
theorem empty_filters_universal_witness :
    buildFilterQuery noFilters = [] ∧
      ∀ (rx : RegexEngine) (r : Record), Query.sat rx r (buildFilterQuery noFilters) = true :=
  empty_filters_universal noFilters rfl rfl rfl rfl rfl rfl rfl rfl rfl

/-! ## Characters -/

theorem isDigit_iff (c : Char) : c.isDigit = true ↔ 48 ≤ c.toNat ∧ c.toNat ≤ 57 := by
  simp only [Char.isDigit, Char.toNat, Bool.and_eq_true, decide_eq_true_eq, ge_iff_le,
    UInt32.le_def, BitVec.le_def]
  rfl

theorem isAlpha_iff (c : Char) :
    c.isAlpha = true ↔ (65 ≤ c.toNat ∧ c.toNat ≤ 90) ∨ (97 ≤ c.toNat ∧ c.toNat ≤ 122) := by
  simp only [Char.isAlpha, Char.isUpper, Char.isLower, Char.toNat, Bool.or_eq_true,
    Bool.and_eq_true, decide_eq_true_eq, ge_iff_le, UInt32.le_def, BitVec.le_def]
  rfl

theorem isJsWhitespace_iff (c : Char) :
    isJsWhitespace c = true ↔
      c.toNat = 9 ∨ c.toNat = 10 ∨ c.toNat = 11 ∨ c.toNat = 12 ∨ c.toNat = 13 ∨
      c.toNat = 32 ∨ c.toNat = 160 ∨ c.toNat = 5760 ∨ (8192 ≤ c.toNat ∧ c.toNat ≤ 8202) ∨
      c.toNat = 8232 ∨ c.toNat = 8233 ∨ c.toNat = 8239 ∨ c.toNat = 8287 ∨
      c.toNat = 12288 ∨ c.toNat = 65279 := by
  simp only [isJsWhitespace, Bool.or_eq_true, Bool.and_eq_true, beq_iff_eq, decide_eq_true_eq]
  tauto

theorem regexSpecials_codes (c : Char) (h : c ∈ regexSpecials) :
    c.toNat ∈ [46, 42, 43, 63, 94, 36, 123, 125, 40, 41, 124, 91, 93, 92] :=
  List.mem_map_of_mem Char.toNat h

theorem not_digit_of_alpha (c : Char) (h : c.isAlpha = true) : c.isDigit = false := by
  rw [isAlpha_iff] at h
  rw [← Bool.not_eq_true, isDigit_iff]
  omega

theorem not_special_of_alpha (c : Char) (h : c.isAlpha = true) : c ∉ regexSpecials := by
  intro hm
  have h1 := regexSpecials_codes c hm
  rw [isAlpha_iff] at h
  simp at h1
  omega

theorem not_digit_of_whitespace (c : Char) (h : isJsWhitespace c = true) : c.isDigit = false := by
  rw [isJsWhitespace_iff] at h
  rw [← Bool.not_eq_true, isDigit_iff]
  omega

theorem not_special_of_whitespace (c : Char) (h : isJsWhitespace c = true) :
    c ∉ regexSpecials := by
  intro hm
  have h1 := regexSpecials_codes c hm
  rw [isJsWhitespace_iff] at h
  simp at h1
  omega

theorem not_whitespace_of_digit (c : Char) (h : c.isDigit = true) : isJsWhitespace c = false := by
  rw [isDigit_iff] at h
  rw [← Bool.not_eq_true, isJsWhitespace_iff]
  omega

theorem escapeRegex_plain (l : List Char) (h : ∀ c ∈ l, c ∉ regexSpecials) :
    escapeRegex ⟨l⟩ = ⟨l⟩ := by
  unfold escapeRegex
  congr 1
  induction l with
  | nil => rfl
  | cons a t ih =>
    have ha : a ∉ regexSpecials := h a (List.mem_cons_self _ _)
    rw [List.flatMap_cons, if_neg ha, ih (fun c hc => h c (List.mem_cons_of_mem _ hc))]
    rfl

theorem exists_mem_dropWhile (p : Char → Bool) (l : List Char)
    (h : ∃ c ∈ l, p c = false) : ∃ c ∈ l.dropWhile p, p c = false := by
  induction l with
  | nil => simp at h
  | cons a t ih =>
    obtain ⟨c, hc, hpc⟩ := h
    by_cases hpa : p a = true
    · rw [List.dropWhile_cons_of_pos hpa]
      rcases List.mem_cons.mp hc with rfl | hct
      · rw [hpa] at hpc
        cases hpc
      · exact ih ⟨c, hct, hpc⟩
    · rw [List.dropWhile_cons_of_neg hpa]
      exact ⟨c, hc, hpc⟩

theorem jsTrim_length_pos (l : List Char) (h : ∃ c ∈ l, isJsWhitespace c = false) :
    0 < (jsTrim ⟨l⟩).length := by
  obtain ⟨c, hc, hpc⟩ := exists_mem_dropWhile isJsWhitespace l h
  obtain ⟨d, hd, _⟩ := exists_mem_dropWhile isJsWhitespace
    (l.dropWhile isJsWhitespace).reverse ⟨c, List.mem_reverse.mpr hc, hpc⟩
  have hlen : (jsTrim ⟨l⟩).length
      = ((l.dropWhile isJsWhitespace).reverse.dropWhile isJsWhitespace).reverse.length := rfl
  rw [hlen, List.length_reverse]
  exact List.length_pos_of_mem hd

/-! ## The search predicate -/

theorem keep_all_disjuncts (searchRegex : Cond) (extra : List Query)
    (hextra : ∀ q ∈ extra, Query.keyCount q > 0) :
    (textDisjuncts searchRegex ++ extra).filter (fun condition => Query.keyCount condition > 0)
      = textDisjuncts searchRegex ++ extra := by
  rw [List.filter_eq_self]
  intro q hq
  rcases List.mem_append.mp hq with h | h
  · simp only [textDisjuncts, List.mem_cons, List.mem_singleton, List.not_mem_nil, or_false] at h
    rcases h with rfl | rfl | rfl | rfl | rfl | rfl <;> rfl
  · simpa using hextra q h

theorem numericDisjuncts_keys (n : Value) : ∀ q ∈ numericDisjuncts n, Query.keyCount q > 0 := by
  intro q h
  simp only [numericDisjuncts, List.mem_cons, List.mem_singleton, List.not_mem_nil, or_false] at h
  rcases h with rfl | rfl | rfl | rfl | rfl <;> exact Nat.one_pos

/-- A non-empty token without a decimal digit gives the six text disjuncts
on the escaped token, and nothing else. -/
theorem buildSearchQuery_no_digit (l : List Char) (hne : l ≠ [])
    (hnodigit : ∀ c ∈ l, c.isDigit = false) :
    buildSearchQuery ⟨l⟩ = [Clause.or (textDisjuncts (Cond.regex (escapeRegex ⟨l⟩) "i"))] := by
  have hlen : ((String.mk l).length == 0) = false := by
    cases l with
    | nil => exact absurd rfl hne
    | cons a t => rfl
  have hstrip : stripNonDigits ⟨l⟩ = ⟨[]⟩ := by
    unfold stripNonDigits
    congr 1
    rw [List.filter_eq_nil_iff]
    intro c hc
    simp [hnodigit c hc]
  have hparse : parseInt (stripNonDigits ⟨l⟩) = none := by
    rw [hstrip]
    rfl
  have hkeep := keep_all_disjuncts (Cond.regex (escapeRegex ⟨l⟩) "i") [] (by simp)
  rw [List.append_nil] at hkeep
  unfold buildSearchQuery
  simp only [hlen, hparse, hkeep]
  rfl

/-- A token with a decimal digit gives the six text disjuncts followed by the
five numeric disjuncts on the double nearest to the number its digits spell. -/
theorem buildSearchQuery_digit (l : List Char) (hdigit : ∃ c ∈ l, c.isDigit = true) :
    buildSearchQuery ⟨l⟩ =
      [Clause.or (textDisjuncts (Cond.regex (escapeRegex ⟨l⟩) "i") ++
        numericDisjuncts (jsNumber (digitsValue (l.filter Char.isDigit))))] := by
  obtain ⟨c, hc, hcd⟩ := hdigit
  have hlen : ((String.mk l).length == 0) = false := by
    cases l with
    | nil => cases hc
    | cons a t => rfl
  have hmem : c ∈ l.filter Char.isDigit := List.mem_filter.mpr ⟨hc, hcd⟩
  have htake : (l.filter Char.isDigit).takeWhile Char.isDigit = l.filter Char.isDigit :=
    List.takeWhile_eq_self_iff.mpr (fun x hx => (List.mem_filter.mp hx).2)
  have hparse : parseInt (stripNonDigits ⟨l⟩)
      = some (jsNumber (digitsValue (l.filter Char.isDigit))) := by
    unfold parseInt stripNonDigits
    simp only [htake]
    cases hf : l.filter Char.isDigit with
    | nil => rw [hf] at hmem; cases hmem
    | cons a t => rfl
  have htrim : (jsTrim ⟨l⟩).length > 0 :=
    jsTrim_length_pos l ⟨c, hc, not_whitespace_of_digit c hcd⟩
  have hkeep := keep_all_disjuncts (Cond.regex (escapeRegex ⟨l⟩) "i")
    (numericDisjuncts (jsNumber (digitsValue (l.filter Char.isDigit))))
    (numericDisjuncts_keys _)
  unfold buildSearchQuery
  simp only [hlen, hparse, htrim, hkeep]
  rfl

/-- The number a list of digit characters spells, least significant digit
first, is the base-10 value of the digits. -/
theorem digitsValue_eq_ofDigits (cs : List Char) :
    digitsValue cs = Nat.ofDigits 10 (cs.reverse.map (fun c => c.toNat - 48)) := by
  unfold digitsValue
  induction cs using List.reverseRecOn with
  | nil => rfl
  | append_singleton t a ih =>
    rw [List.foldl_append, List.reverse_append]
    simp only [List.foldl_cons, List.foldl_nil, List.reverse_cons, List.reverse_nil,
      List.nil_append, List.singleton_append, List.map_cons, Nat.ofDigits_cons]
    rw [ih]
    ring

/-- C5. For a non-empty token made of letters only, `buildSearchQuery` gives
exactly the six case-insensitive substring disjuncts on Customer Name,
Customer ID, Product ID, Employee Name, Product Name and Brand, and no
disjunct on a numeric field. -/
theorem search_letters_only (search : String) (hne : search ≠ "")
    (hletters : ∀ c ∈ search.data, c.isAlpha = true) :
    buildSearchQuery search =
      [Clause.or
        [[Clause.field "Customer Name" (Cond.regex search "i")],
         [Clause.field "Customer ID" (Cond.regex search "i")],
         [Clause.field "Product ID" (Cond.regex search "i")],
         [Clause.field "Employee Name" (Cond.regex search "i")],
         [Clause.field "Product Name" (Cond.regex search "i")],
         [Clause.field "Brand" (Cond.regex search "i")]]] := by
  obtain ⟨l⟩ := search
  have hl : l ≠ [] := fun h => hne (by subst h; rfl)
  rw [buildSearchQuery_no_digit l hl (fun c hc => not_digit_of_alpha c (hletters c hc)),
    escapeRegex_plain l (fun c hc => not_special_of_alpha c (hletters c hc))]
  rfl

/-- C5 at the token `"Asha"`. -/
theorem search_letters_only_witness :
    buildSearchQuery "Asha" =
      [Clause.or
        [[Clause.field "Customer Name" (Cond.regex "Asha" "i")],
         [Clause.field "Customer ID" (Cond.regex "Asha" "i")],
         [Clause.field "Product ID" (Cond.regex "Asha" "i")],
         [Clause.field "Employee Name" (Cond.regex "Asha" "i")],
         [Clause.field "Product Name" (Cond.regex "Asha" "i")],
         [Clause.field "Brand" (Cond.regex "Asha" "i")]]] :=
  search_letters_only "Asha" (by decide) (by decide)

/-- A natural number below `2 ^ 53` is its own double. -/
theorem roundToDouble_of_lt (n : Nat) (h : n < 2 ^ 53) : roundToDouble n = some n := by
  have he : excessBits 1100 n = 0 := by
    show (if n < 2 ^ 53 then 0 else _) = 0
    rw [if_pos h]
  unfold roundToDouble
  simp [he, Nat.mod_one]

/-- A natural number up to `2 ^ 53` is a JavaScript number as it stands. -/
theorem jsNumber_exact (n : Nat) (h : n ≤ 2 ^ 53) : jsNumber n = Value.num n := by
  rcases Nat.lt_or_eq_of_le h with hlt | heq
  · unfold jsNumber
    rw [roundToDouble_of_lt n hlt]
  · subst heq
    decide

/-- C6 as stated fails. The digits of the token `9007199254740993` spell
`2 ^ 53 + 1`, and the five equalities of `buildSearchQuery` compare with
9007199254740992, the nearest double, not with the integer the digits
spell. -/
theorem digits_beyond_double_precision :
    (∃ c ∈ "9007199254740993".data, c.isDigit = true) ∧
    digitsNumber "9007199254740993" = 9007199254740993 ∧
    buildSearchQuery "9007199254740993" =
      [Clause.or
        [[Clause.field "Customer Name" (Cond.regex "9007199254740993" "i")],
         [Clause.field "Customer ID" (Cond.regex "9007199254740993" "i")],
         [Clause.field "Product ID" (Cond.regex "9007199254740993" "i")],
         [Clause.field "Employee Name" (Cond.regex "9007199254740993" "i")],
         [Clause.field "Product Name" (Cond.regex "9007199254740993" "i")],
         [Clause.field "Brand" (Cond.regex "9007199254740993" "i")],
         [Clause.field "Transaction ID" (Cond.eq (Value.num 9007199254740992))],
         [Clause.field "Age" (Cond.eq (Value.num 9007199254740992))],
         [Clause.field "Quantity" (Cond.eq (Value.num 9007199254740992))],
         [Clause.field "Total Amount" (Cond.eq (Value.num 9007199254740992))],
         [Clause.field "Phone Number" (Cond.eq (Value.num 9007199254740992))]]] ∧
    buildSearchQuery "9007199254740993" ≠
      [Clause.or
        (textDisjuncts (Cond.regex (escapeRegex "9007199254740993") "i") ++
          numericDisjuncts (Value.num (digitsNumber "9007199254740993")))] := by
  have hnum : digitsNumber "9007199254740993" = 9007199254740993 := by decide
  have hcode : buildSearchQuery "9007199254740993" =
      [Clause.or (textDisjuncts (Cond.regex "9007199254740993" "i") ++
        numericDisjuncts (Value.num 9007199254740992))] := by
    rw [buildSearchQuery_digit "9007199254740993".data ⟨'9', by decide, by decide⟩]
    rfl
  refine ⟨⟨'9', by decide, by decide⟩, hnum, hcode, ?_⟩
  rw [hcode, hnum]
  intro h
  simp [numericDisjuncts, textDisjuncts] at h

/-- C6, amended. For a token with at least one decimal digit,
`buildSearchQuery` gives the disjunction of the six text-field substring
conditions followed by the equalities of Transaction ID, Age, Quantity,
Total Amount and Phone Number with the JavaScript number of the integer
that the token's digits spell, non-digits removed: the nearest double, which
is that integer itself whenever the integer is at most `2 ^ 53`. -/
theorem search_with_digits (search : String) (hdigit : ∃ c ∈ search.data, c.isDigit = true) :
    buildSearchQuery search =
      [Clause.or
        [[Clause.field "Customer Name" (Cond.regex (escapeRegex search) "i")],
         [Clause.field "Customer ID" (Cond.regex (escapeRegex search) "i")],
         [Clause.field "Product ID" (Cond.regex (escapeRegex search) "i")],
         [Clause.field "Employee Name" (Cond.regex (escapeRegex search) "i")],
         [Clause.field "Product Name" (Cond.regex (escapeRegex search) "i")],
         [Clause.field "Brand" (Cond.regex (escapeRegex search) "i")],
         [Clause.field "Transaction ID" (Cond.eq (jsNumber (digitsNumber search)))],
         [Clause.field "Age" (Cond.eq (jsNumber (digitsNumber search)))],
         [Clause.field "Quantity" (Cond.eq (jsNumber (digitsNumber search)))],
         [Clause.field "Total Amount" (Cond.eq (jsNumber (digitsNumber search)))],
         [Clause.field "Phone Number" (Cond.eq (jsNumber (digitsNumber search)))]]] ∧
    (digitsNumber search ≤ 2 ^ 53 →
      jsNumber (digitsNumber search) = Value.num (digitsNumber search)) := by
  refine ⟨?_, jsNumber_exact _⟩
  obtain ⟨l⟩ := search
  rw [buildSearchQuery_digit l hdigit, digitsValue_eq_ofDigits]
  rfl

/-- C6, amended, at the token `"42"`: the numeric disjuncts compare with 42. -/
theorem search_with_digits_witness :
    buildSearchQuery "42" =
      [Clause.or
        [[Clause.field "Customer Name" (Cond.regex "42" "i")],
         [Clause.field "Customer ID" (Cond.regex "42" "i")],
         [Clause.field "Product ID" (Cond.regex "42" "i")],
         [Clause.field "Employee Name" (Cond.regex "42" "i")],
         [Clause.field "Product Name" (Cond.regex "42" "i")],
         [Clause.field "Brand" (Cond.regex "42" "i")],
         [Clause.field "Transaction ID" (Cond.eq (Value.num 42))],
         [Clause.field "Age" (Cond.eq (Value.num 42))],
         [Clause.field "Quantity" (Cond.eq (Value.num 42))],
         [Clause.field "Total Amount" (Cond.eq (Value.num 42))],
         [Clause.field "Phone Number" (Cond.eq (Value.num 42))]]] :=
  (search_with_digits "42" ⟨'4', by decide, by decide⟩).1

/-- C7 as stated fails: the token `" "` consists of whitespace only, and
`buildSearchQuery` does not return the empty object for it. -/
theorem blank_token_not_empty :
    (∀ c ∈ " ".data, isJsWhitespace c = true) ∧ buildSearchQuery " " ≠ [] := by
  refine ⟨by decide, ?_⟩
  rw [show buildSearchQuery " " = [Clause.or (textDisjuncts (Cond.regex " " "i"))] from rfl]
  exact List.cons_ne_nil _ _

/-- C7, amended. For a token made of whitespace characters only:
`buildSearchQuery` returns the empty object when the token is the empty
string, and otherwise the disjunction of the six text-field substring
conditions on the token, without numeric disjuncts. -/
theorem search_whitespace_only (search : String)
    (hblank : ∀ c ∈ search.data, isJsWhitespace c = true) :
    buildSearchQuery search =
      if search = "" then []
      else
        [Clause.or
          [[Clause.field "Customer Name" (Cond.regex search "i")],
           [Clause.field "Customer ID" (Cond.regex search "i")],
           [Clause.field "Product ID" (Cond.regex search "i")],
           [Clause.field "Employee Name" (Cond.regex search "i")],
           [Clause.field "Product Name" (Cond.regex search "i")],
           [Clause.field "Brand" (Cond.regex search "i")]]] := by
  obtain ⟨l⟩ := search
  cases l with
  | nil => rfl
  | cons a t =>
    have hne : (String.mk (a :: t)) ≠ "" := fun h => by
      have hd := congrArg String.data h
      exact List.cons_ne_nil _ _ hd
    rw [if_neg hne,
      buildSearchQuery_no_digit (a :: t) (List.cons_ne_nil _ _)
        (fun c hc => not_digit_of_whitespace c (hblank c hc)),
      escapeRegex_plain (a :: t) (fun c hc => not_special_of_whitespace c (hblank c hc))]
    rfl

/-- C7, amended, at the one-blank token. -/
theorem search_whitespace_only_witness :
    buildSearchQuery " " =
      [Clause.or
        [[Clause.field "Customer Name" (Cond.regex " " "i")],
         [Clause.field "Customer ID" (Cond.regex " " "i")],
         [Clause.field "Product ID" (Cond.regex " " "i")],
         [Clause.field "Employee Name" (Cond.regex " " "i")],
         [Clause.field "Product Name" (Cond.regex " " "i")],
         [Clause.field "Brand" (Cond.regex " " "i")]]] :=
  (search_whitespace_only " " (by decide)).trans (if_neg (by decide))

/-! ## Age bounds and tags in the filter predicate -/

theorem fieldCond_append_field (q : Query) (n name : String) (c : Cond) (h : (n == name) = false) :
    Query.fieldCond (q ++ [Clause.field n c]) name = Query.fieldCond q name := by
  induction q with
  | nil => simp [Query.fieldCond, h]
  | cons a t ih =>
    cases a with
    | field m d =>
      rw [List.cons_append]
      simp only [Query.fieldCond]
      rw [ih]
    | and qs =>
      rw [List.cons_append]
      simp only [Query.fieldCond]
      exact ih
    | or qs =>
      rw [List.cons_append]
      simp only [Query.fieldCond]
      exact ih

/-- For bounds other than 0 the Age entry of `buildFilterQuery` holds exactly
the bounds that are present, and is absent when both are. -/
theorem age_condition_nonzero (f : Filters) (hmin : f.minAge ≠ some 0) (hmax : f.maxAge ≠ some 0) :
    Query.fieldCond (buildFilterQuery f) "Age" =
      if f.minAge = none ∧ f.maxAge = none then none
      else some (Cond.bounds (f.minAge.map Value.num) (f.maxAge.map Value.num)) := by
  obtain ⟨region, gender, minAge, maxAge, category, tags, payment, startDate, endDate⟩ := f
  simp only at hmin hmax
  have hdate : ∀ (q : Query) (c : Cond), Query.fieldCond (q ++ [Clause.field "Date" c]) "Age"
      = Query.fieldCond q "Age" := fun q c => fieldCond_append_field q _ _ c (by decide)
  have hpay : ∀ (q : Query) (c : Cond),
      Query.fieldCond (q ++ [Clause.field "Payment Method" c]) "Age"
      = Query.fieldCond q "Age" := fun q c => fieldCond_append_field q _ _ c (by decide)
  have htag : ∀ (q : Query) (c : Cond), Query.fieldCond (q ++ [Clause.field "Tags" c]) "Age"
      = Query.fieldCond q "Age" := fun q c => fieldCond_append_field q _ _ c (by decide)
  have hcat : ∀ (q : Query) (c : Cond),
      Query.fieldCond (q ++ [Clause.field "Product Category" c]) "Age"
      = Query.fieldCond q "Age" := fun q c => fieldCond_append_field q _ _ c (by decide)
  have hage : ∀ (q : Query) (c : Cond), Query.fieldCond q "Age" = none →
      Query.fieldCond (q ++ [Clause.field "Age" c]) "Age" = some c := by
    intro q c hq
    induction q with
    | nil => rfl
    | cons a t ih =>
      cases a with
      | field m d =>
        rw [List.cons_append]
        simp only [Query.fieldCond] at hq ⊢
        split at hq
        · cases hq
        · rename_i hm
          rw [if_neg hm]
          exact ih hq
      | and qs =>
        rw [List.cons_append]
        simp only [Query.fieldCond] at hq ⊢
        exact ih hq
      | or qs =>
        rw [List.cons_append]
        simp only [Query.fieldCond] at hq ⊢
        exact ih hq
  have hgen : ∀ (q : Query) (c : Cond), Query.fieldCond (q ++ [Clause.field "Gender" c]) "Age"
      = Query.fieldCond q "Age" := fun q c => fieldCond_append_field q _ _ c (by decide)
  have hreg : ∀ (q : Query) (c : Cond),
      Query.fieldCond (q ++ [Clause.field "Customer Region" c]) "Age"
      = Query.fieldCond q "Age" := fun q c => fieldCond_append_field q _ _ c (by decide)
  have hnil : Query.fieldCond [] "Age" = none := rfl
  unfold buildFilterQuery
  simp only [apply_ite (fun q => Query.fieldCond q "Age"), hdate, hpay, htag, hcat, hgen, hreg,
    hnil, ite_self]
  cases minAge with
  | none =>
    cases maxAge with
    | none => rfl
    | some b =>
      have hb : b ≠ 0 := fun h => hmax (by rw [h])
      simp [truthyNum, hb]
      apply hage
      split <;> (try split) <;> rfl
  | some a =>
    have ha : a ≠ 0 := fun h => hmin (by rw [h])
    cases maxAge with
    | none =>
      simp [truthyNum, ha]
      apply hage
      split <;> (try split) <;> rfl
    | some b =>
      have hb : b ≠ 0 := fun h => hmax (by rw [h])
      simp [truthyNum, ha, hb]
      apply hage
      split <;> (try split) <;> rfl

theorem specials_not_alphanum (c : Char) (h : c ∈ regexSpecials) : c.isAlphanum = false := by
  have h1 := regexSpecials_codes c h
  rw [← Bool.not_eq_true]
  intro h2
  simp only [Char.isAlphanum, Bool.or_eq_true] at h2
  rw [isAlpha_iff, isDigit_iff] at h2
  simp at h1
  omega

theorem parseRegex_escape (d : Char) (rest : List Char) (hd : d.isAlphanum = false) :
    parseRegex ('\\' :: d :: rest) = (parseRegex rest).map (pushAtom (Atom.lit d)) := by
  rw [parseRegex.eq_def]
  simp [hd]

theorem parseRegex_plain (c : Char) (rest : List Char) (hc : c ∉ regexSpecials) :
    parseRegex (c :: rest) = (parseRegex rest).map (pushAtom (Atom.lit c)) := by
  have h1 : c ≠ '\\' := fun h => hc (by rw [h]; decide)
  have h2 : c ≠ '|' := fun h => hc (by rw [h]; decide)
  have h3 : c ≠ '.' := fun h => hc (by rw [h]; decide)
  rw [parseRegex.eq_def]
  simp [h1, h2, h3, hc]

theorem parseRegex_escaped (l : List Char) :
    parseRegex (l.flatMap (fun c => if c ∈ regexSpecials then ['\\', c] else [c]))
      = some [l.map Atom.lit] := by
  induction l with
  | nil => rfl
  | cons a t ih =>
    rw [List.flatMap_cons]
    by_cases ha : a ∈ regexSpecials
    · rw [if_pos ha]
      rw [List.cons_append, List.cons_append, List.nil_append, parseRegex_escape a _ (specials_not_alphanum a ha), ih]
      rfl
    · rw [if_neg ha]
      rw [List.cons_append, List.nil_append, parseRegex_plain a _ ha, ih]
      rfl

theorem matchHere_lit (l s : List Char) :
    matchHere true (l.map Atom.lit) s = true ↔ l.map Char.toLower <+: s.map Char.toLower := by
  induction l generalizing s with
  | nil => simp [matchHere]
  | cons a t ih =>
    cases s with
    | nil => simp [matchHere]
    | cons b u =>
      simp only [List.map_cons, matchHere, Atom.accepts, if_true, Bool.and_eq_true, beq_iff_eq, ih,
        List.cons_prefix_cons]

theorem matchAnywhere_lit (l s : List Char) :
    matchAnywhere true (l.map Atom.lit) s = true ↔ l.map Char.toLower <:+: s.map Char.toLower := by
  induction s with
  | nil =>
    simp only [matchAnywhere, matchHere_lit, List.map_nil, List.prefix_nil, List.infix_nil]
  | cons b u ih =>
    simp only [matchAnywhere, Bool.or_eq_true, matchHere_lit, ih, List.map_cons, List.infix_cons_iff]

/-- On an escaped token the reference engine decides literal occurrence,
letter case ignored. -/
theorem regexTest_escaped (token subject : String) :
    regexTest (escapeRegex token) "i" subject = some (decide (occursIgnoringCase token subject)) := by
  unfold regexTest escapeRegex occursIgnoringCase
  rw [if_pos (Or.inl rfl)]
  simp only [parseRegex_escaped, Option.map_some', List.any_cons, List.any_nil, Bool.or_false]
  congr 1
  rw [Bool.eq_iff_iff]
  simp only [decide_eq_true_eq]
  exact matchAnywhere_lit _ _

/-- C8 (the code departs from the claim). A bound that is present with the
value 0 is dropped: `maxAge = 0` alone gives the empty object, which a
30-year-old's document satisfies, and `minAge = 0` next to `maxAge = 60`
gives the upper bound only; `maxAge = 1` does give `Age <= 1`. -/
theorem zero_age_bound_dropped :
    buildFilterQuery ⟨[], [], none, some 0, [], [], [], none, none⟩ = [] ∧
    Query.sat fragmentEngine [("Age", Value.num 30)]
      (buildFilterQuery ⟨[], [], none, some 0, [], [], [], none, none⟩) = true ∧
    buildFilterQuery ⟨[], [], some 0, some 60, [], [], [], none, none⟩
      = [Clause.field "Age" (Cond.bounds none (some (Value.num 60)))] ∧
    buildFilterQuery ⟨[], [], none, some 1, [], [], [], none, none⟩
      = [Clause.field "Age" (Cond.bounds none (some (Value.num 1)))] :=
  ⟨rfl, rfl, rfl, rfl⟩

/-- C9 (the code departs from the claim). Selected tag `v1.0`, document with
tag string `organic,v100`: the pattern of the Tags condition is the raw tag,
its dot matches any character, and the document satisfies the condition
although `v1.0` does not occur in `organic,v100`. The escaping that
`buildSearchQuery` applies would have made the match literal. -/
theorem tag_pattern_not_literal :
    buildFilterQuery ⟨[], [], none, none, [], ["v1.0"], [], none, none⟩
      = [Clause.field "Tags" (Cond.regex "v1.0" "i")] ∧
    regexTest "v1.0" "i" "organic,v100" = some true ∧
    Query.sat fragmentEngine [("Tags", Value.str "organic,v100")]
      (buildFilterQuery ⟨[], [], none, none, [], ["v1.0"], [], none, none⟩) = true ∧
    ¬ occursIgnoringCase "v1.0" "organic,v100" ∧
    regexTest (escapeRegex "v1.0") "i" "organic,v100" = some false :=
  ⟨rfl, by decide, by decide, by decide, by decide⟩

/-! ## The combined query -/

theorem sat_and_one (rx : RegexEngine) (r : Record) (p : Query) :
    Query.sat rx r [Clause.and [p]] = Query.sat rx r p := by
  simp [Query.sat, Clause.sat, satAll]

theorem sat_and_two (rx : RegexEngine) (r : Record) (p q : Query) :
    Query.sat rx r [Clause.and [p, q]] = (Query.sat rx r p && Query.sat rx r q) := by
  simp [Query.sat, Clause.sat, satAll]

/-- C10. The combined query of `getSalesData` and `getSalesDataOptimized`:
the empty object when the filter and the search predicate are both empty;
`{ $and: [p] }`, which a document satisfies exactly when it satisfies `p`,
when `p` is the only non-empty one; `{ $and: [filter, search] }`, satisfied
exactly by the documents that satisfy both, when both are non-empty. -/
theorem combined_query :
    combineQuery [] [] = [] ∧
    (∀ (rx : RegexEngine) (r : Record), Query.sat rx r (combineQuery [] []) = true) ∧
    (∀ (c : Clause) (cs : Query),
      combineQuery (c :: cs) [] = [Clause.and [c :: cs]] ∧
      ∀ (rx : RegexEngine) (r : Record),
        Query.sat rx r (combineQuery (c :: cs) []) = Query.sat rx r (c :: cs)) ∧
    (∀ (d : Clause) (ds : Query),
      combineQuery [] (d :: ds) = [Clause.and [d :: ds]] ∧
      ∀ (rx : RegexEngine) (r : Record),
        Query.sat rx r (combineQuery [] (d :: ds)) = Query.sat rx r (d :: ds)) ∧
    (∀ (c : Clause) (cs : Query) (d : Clause) (ds : Query),
      combineQuery (c :: cs) (d :: ds) = [Clause.and [c :: cs, d :: ds]] ∧
      ∀ (rx : RegexEngine) (r : Record),
        Query.sat rx r (combineQuery (c :: cs) (d :: ds))
          = (Query.sat rx r (c :: cs) && Query.sat rx r (d :: ds))) := by
  have h1 : ∀ (c : Clause) (cs : Query), combineQuery (c :: cs) [] = [Clause.and [c :: cs]] := by
    intro c cs
    simp [combineQuery, Query.keyCount]
  have h2 : ∀ (d : Clause) (ds : Query), combineQuery [] (d :: ds) = [Clause.and [d :: ds]] := by
    intro d ds
    simp [combineQuery, Query.keyCount]
  have h3 : ∀ (c : Clause) (cs : Query) (d : Clause) (ds : Query),
      combineQuery (c :: cs) (d :: ds) = [Clause.and [c :: cs, d :: ds]] := by
    intro c cs d ds
    simp [combineQuery, Query.keyCount]
  refine ⟨rfl, fun _ _ => rfl, fun c cs => ⟨h1 c cs, fun rx r => ?_⟩,
    fun d ds => ⟨h2 d ds, fun rx r => ?_⟩, fun c cs d ds => ⟨h3 c cs d ds, fun rx r => ?_⟩⟩
  · rw [h1]
    exact sat_and_one rx r (c :: cs)
  · rw [h2]
    exact sat_and_one rx r (d :: ds)
  · rw [h3]
    exact sat_and_two rx r (c :: cs) (d :: ds)

/-! ## The runs with calls have the results of the plain functions -/

theorem anchorRangeRun_fst (st : Store) (query : Query) (field : String) (dir skip : Int)
    (limit : Nat) :
    (anchorRangeRun st query field dir skip limit).1 = anchorRange st query field dir skip limit := by
  unfold anchorRangeRun anchorRange
  split <;> rfl

theorem fetchDataRun_fst (st : Store) (query : Query) (field : String) (dir skip : Int)
    (limit : Nat) :
    (fetchDataRun st query field dir skip limit).1 = fetchData st query field dir skip limit := by
  unfold fetchDataRun fetchData
  split
  · exact anchorRangeRun_fst st query field dir skip limit
  · rfl

theorem countTotalRun_fst (st : Store) (query : Query) :
    (countTotalRun st query).1 = countTotal st query := by
  unfold countTotalRun countTotal
  split
  · rfl
  · split <;> rfl

theorem getSalesDataTryRun_fst (st : Store) (req : PageRequest) :
    (getSalesDataTryRun st req).1 = getSalesDataTry st req := by
  unfold getSalesDataTryRun getSalesDataTry
  simp only [← fetchDataRun_fst, ← countTotalRun_fst]
  rcases fetchDataRun st (combineQuery (buildFilterQuery req.filters) (buildSearchQuery req.search))
    (effectiveSortField req.sortBy) (sortDirection req.sortOrder)
    ((req.page - 1) * req.limit) req.limit with ⟨fetched, calls⟩
  cases fetched with
  | error e => rfl
  | ok data =>
    rcases countTotalRun st
      (combineQuery (buildFilterQuery req.filters) (buildSearchQuery req.search)) with
      ⟨counted, calls2⟩
    cases counted with
    | error e => rfl
    | ok totalRecords =>
      simp only []
      split
      · rfl
      · split
        · split <;> rfl
        · rfl

theorem getSalesDataRun_fst (st : Store) (req : PageRequest) :
    (getSalesDataRun st req).1 = getSalesData st req := by
  unfold getSalesDataRun getSalesData
  rw [← getSalesDataTryRun_fst]
  rcases getSalesDataTryRun st req with ⟨result, calls⟩
  cases result <;> rfl

theorem optimizedFetchRun_fst (st : Store) (query : Query) (skip : Int) (limit : Nat) :
    (optimizedFetchRun st query skip limit).1 = optimizedFetch st query skip limit := by
  unfold optimizedFetchRun optimizedFetch
  split
  · rfl
  · split <;> rfl

theorem optimizedCountRun_fst (st : Store) (query : Query) :
    (optimizedCountRun st query).1 = optimizedCount st query := by
  unfold optimizedCountRun optimizedCount
  split <;> rfl

theorem getSalesDataOptimizedRun_fst (st : Store) (req : PageRequest) :
    (getSalesDataOptimizedRun st req).1 = getSalesDataOptimized st req := by
  unfold getSalesDataOptimizedRun getSalesDataOptimized
  simp only [← optimizedFetchRun_fst, ← optimizedCountRun_fst]
  rcases optimizedFetchRun st
    (combineQuery (buildFilterQuery req.filters) (buildSearchQuery req.search))
    ((req.page - 1) * req.limit) req.limit with ⟨fetched, calls⟩
  cases fetched <;> rfl

/-! ## The sort field and direction of the fetches -/

theorem lexLe_total (a b : List Char) : lexLe a b = true ∨ lexLe b a = true := by
  induction a generalizing b with
  | nil => exact Or.inl rfl
  | cons x xs ih =>
    cases b with
    | nil => exact Or.inr rfl
    | cons y ys =>
      simp only [lexLe, Bool.or_eq_true, Bool.and_eq_true, decide_eq_true_eq, beq_iff_eq]
      rcases Nat.lt_trichotomy x.toNat y.toNat with h | h | h
      · exact Or.inl (Or.inl h)
      · rcases ih ys with h2 | h2
        · exact Or.inl (Or.inr ⟨h, h2⟩)
        · exact Or.inr (Or.inr ⟨h.symm, h2⟩)
      · exact Or.inr (Or.inl h)

theorem lexLe_trans (a b c : List Char) (hab : lexLe a b = true) (hbc : lexLe b c = true) :
    lexLe a c = true := by
  induction a generalizing b c with
  | nil => rfl
  | cons x xs ih =>
    cases b with
    | nil => simp [lexLe] at hab
    | cons y ys =>
      cases c with
      | nil => simp [lexLe] at hbc
      | cons z zs =>
        simp only [lexLe, Bool.or_eq_true, Bool.and_eq_true, decide_eq_true_eq,
          beq_iff_eq] at hab hbc ⊢
        rcases hab with h1 | ⟨h1, h1'⟩
        · rcases hbc with h2 | ⟨h2, _⟩
          · exact Or.inl (Nat.lt_trans h1 h2)
          · exact Or.inl (h2 ▸ h1)
        · rcases hbc with h2 | ⟨h2, h2'⟩
          · exact Or.inl (h1 ▸ h2)
          · exact Or.inr ⟨h1.trans h2, ih ys zs h1' h2'⟩

theorem sortLe_total (a b : Value) : Value.sortLe a b = true ∨ Value.sortLe b a = true := by
  cases a <;> cases b <;>
    simp [Value.sortLe, Value.rank, Value.leSame, Int.le_total, lexLe_total]

theorem sortLe_trans (a b c : Value) (hab : Value.sortLe a b = true)
    (hbc : Value.sortLe b c = true) : Value.sortLe a c = true := by
  cases a <;> cases b <;> cases c <;>
    simp [Value.sortLe, Value.rank, Value.leSame] at hab hbc ⊢
  · exact Int.le_trans hab hbc
  · exact lexLe_trans _ _ _ hab hbc

theorem docLe_isTotal (field : String) (dir : Int) : IsTotal Record (docLe field dir) :=
  ⟨fun a b => by
    unfold docLe
    split
    · exact sortLe_total _ _
    · exact sortLe_total _ _⟩

theorem docLe_isTrans (field : String) (dir : Int) : IsTrans Record (docLe field dir) :=
  ⟨fun a b c hab hbc => by
    unfold docLe at hab hbc ⊢
    split at hab
    · rw [if_pos (by assumption)] at hbc ⊢
      exact sortLe_trans _ _ _ hbc hab
    · rw [if_neg (by assumption)] at hbc ⊢
      exact sortLe_trans _ _ _ hab hbc⟩

theorem sorted_window (field : String) (dir : Int) (docs : List Record) (k n : Nat) :
    (window (sortDocs field dir docs) k n).Sorted (docLe field dir) := by
  haveI := docLe_isTotal field dir
  haveI := docLe_isTrans field dir
  have hs : (sortDocs field dir docs).Sorted (docLe field dir) :=
    List.sorted_insertionSort (docLe field dir) docs
  unfold window
  split
  · exact hs.sublist (List.drop_sublist _ _)
  · exact hs.sublist ((List.take_sublist _ _).trans (List.drop_sublist _ _))

theorem getSalesDataRun_snd (st : Store) (req : PageRequest) :
    (getSalesDataRun st req).2 = (getSalesDataTryRun st req).2 := by
  unfold getSalesDataRun
  rcases getSalesDataTryRun st req with ⟨result, calls⟩
  cases result <;> rfl

theorem getSalesDataRun_calls (st : Store) (req : PageRequest) :
    ∃ rest, (getSalesDataRun st req).2 =
      (fetchDataRun st (combineQuery (buildFilterQuery req.filters) (buildSearchQuery req.search))
        (effectiveSortField req.sortBy) (sortDirection req.sortOrder)
        ((req.page - 1) * req.limit) req.limit).2 ++ rest := by
  rw [getSalesDataRun_snd]
  unfold getSalesDataTryRun
  simp only []
  rcases fetchDataRun st (combineQuery (buildFilterQuery req.filters) (buildSearchQuery req.search))
    (effectiveSortField req.sortBy) (sortDirection req.sortOrder)
    ((req.page - 1) * req.limit) req.limit with ⟨fetched, calls⟩
  cases fetched with
  | error e => exact ⟨[], (List.append_nil _).symm⟩
  | ok data =>
    rcases countTotalRun st
      (combineQuery (buildFilterQuery req.filters) (buildSearchQuery req.search)) with
      ⟨counted, calls2⟩
    cases counted with
    | error e => exact ⟨calls2, rfl⟩
    | ok totalRecords =>
      simp only []
      split
      · exact ⟨calls2, rfl⟩
      · split
        · split
          · exact ⟨_, List.append_assoc _ _ _⟩
          · exact ⟨_, List.append_assoc _ _ _⟩
        · exact ⟨calls2, rfl⟩

theorem effectiveSortField_eq (sortBy : String) :
    effectiveSortField sortBy = if sortBy = "date" then "Date" else "Transaction ID" := by
  unfold effectiveSortField
  by_cases hid : sortBy = "id"
  · subst hid
    rfl
  · by_cases hdate : sortBy = "date"
    · subst hdate
      rfl
    · simp [hid, hdate]

/-- C11 as stated fails. Two documents with identifiers 1, 2 and quantities
5, 3; page 1 of size 2 with sort key `quantity`, ascending: the whitelist maps
the key to `Quantity`, the fetch asks for the order of `Transaction ID`, and
the response lists identifier 1 before identifier 2, while the order of
`Quantity` is the other way round. -/
theorem quantity_key_sorts_by_identifier :
    sortField "quantity" = "Quantity" ∧
    (getSalesDataRun
        (listStore fragmentEngine
          [[("Transaction ID", Value.num 1), ("Quantity", Value.num 5)],
           [("Transaction ID", Value.num 2), ("Quantity", Value.num 3)]])
        ⟨1, 2, "", "quantity", "asc", noFilters⟩).2.head?
      = some (StoreCall.find [] "Transaction ID" 1 (some 0) 2) ∧
    (getSalesData
        (listStore fragmentEngine
          [[("Transaction ID", Value.num 1), ("Quantity", Value.num 5)],
           [("Transaction ID", Value.num 2), ("Quantity", Value.num 3)]])
        ⟨1, 2, "", "quantity", "asc", noFilters⟩).data
      = [project [("Transaction ID", Value.num 1), ("Quantity", Value.num 5)],
         project [("Transaction ID", Value.num 2), ("Quantity", Value.num 3)]] ∧
    sortDocs (sortField "quantity") 1
        [[("Transaction ID", Value.num 1), ("Quantity", Value.num 5)],
         [("Transaction ID", Value.num 2), ("Quantity", Value.num 3)]]
      = [[("Transaction ID", Value.num 2), ("Quantity", Value.num 3)],
         [("Transaction ID", Value.num 1), ("Quantity", Value.num 5)]] :=
  ⟨by decide, rfl, by decide, by decide⟩

/-- C11, amended. For every request that `getSalesData` serves by direct
offset (offset at most 500000), the first store call is the `find` on the
combined query sorted by `Date` when the sort key is `date` and by
`Transaction ID` for every other key, with the requested skip and limit; that
call is the fetch; and on the reference store the fetched documents are in
the order of that field. -/
theorem direct_offset_sort_field (st : Store) (req : PageRequest)
    (hdirect : (req.page - 1) * req.limit ≤ 500000) :
    (∃ rest, (getSalesDataRun st req).2 =
      StoreCall.find (combineQuery (buildFilterQuery req.filters) (buildSearchQuery req.search))
        (if req.sortBy = "date" then "Date" else "Transaction ID")
        (sortDirection req.sortOrder) (some ((req.page - 1) * req.limit)) req.limit :: rest) ∧
    fetchData st (combineQuery (buildFilterQuery req.filters) (buildSearchQuery req.search))
        (effectiveSortField req.sortBy) (sortDirection req.sortOrder)
        ((req.page - 1) * req.limit) req.limit
      = st.find (combineQuery (buildFilterQuery req.filters) (buildSearchQuery req.search))
        (if req.sortBy = "date" then "Date" else "Transaction ID")
        (sortDirection req.sortOrder) (some ((req.page - 1) * req.limit)) req.limit ∧
    ∀ (rx : RegexEngine) (docs data : List Record),
      (listStore rx docs).find
          (combineQuery (buildFilterQuery req.filters) (buildSearchQuery req.search))
          (if req.sortBy = "date" then "Date" else "Transaction ID")
          (sortDirection req.sortOrder) (some ((req.page - 1) * req.limit)) req.limit
        = Except.ok data →
      data.Sorted (docLe (if req.sortBy = "date" then "Date" else "Transaction ID")
        (sortDirection req.sortOrder)) := by
  have hnot : ¬ (req.page - 1) * req.limit > 500000 := by omega
  refine ⟨?_, ?_, ?_⟩
  · obtain ⟨rest, hrest⟩ := getSalesDataRun_calls st req
    refine ⟨rest, ?_⟩
    rw [hrest, fetchDataRun, if_neg hnot, effectiveSortField_eq]
    rfl
  · rw [fetchData, if_neg hnot, effectiveSortField_eq]
    rfl
  · intro rx docs data hdata
    simp only [listStore] at hdata
    split at hdata
    · cases hdata
    · cases hdata
      exact sorted_window _ _ _ _ _

/-- C11, amended, at sort key `quantity`: page 1 of size 2 is fetched in the
order of `Transaction ID`. -/
theorem direct_offset_sort_field_witness :
    fetchData (listStore fragmentEngine (idDocs 3))
        (combineQuery (buildFilterQuery noFilters) (buildSearchQuery ""))
        (effectiveSortField "quantity") (sortDirection "asc") ((1 - 1) * (2 : Nat)) 2
      = (listStore fragmentEngine (idDocs 3)).find
        (combineQuery (buildFilterQuery noFilters) (buildSearchQuery ""))
        "Transaction ID" (sortDirection "asc") (some ((1 - 1) * (2 : Nat))) 2 :=
  (direct_offset_sort_field (listStore fragmentEngine (idDocs 3))
    ⟨1, 2, "", "quantity", "asc", noFilters⟩ (by decide)).2.1

theorem fetchData_listStore_sorted (rx : RegexEngine) (docs : List Record) (query : Query)
    (field : String) (dir skip : Int) (limit : Nat) (data : List Record)
    (hdata : fetchData (listStore rx docs) query field dir skip limit = Except.ok data) :
    data.Sorted (docLe field dir) := by
  unfold fetchData at hdata
  split at hdata
  · unfold anchorRange at hdata
    split at hdata
    · cases hdata
    · cases hdata
      exact List.sorted_nil
    · simp only [listStore] at hdata
      cases hdata
      exact sorted_window _ _ _ _ _
  · simp only [directOffset, listStore] at hdata
    split at hdata
    · cases hdata
    · cases hdata
      exact sorted_window _ _ _ _ _

theorem get_project_id (r : Record) : Record.get (project r) "id" = r.get "Transaction ID" := rfl

theorem sorted_map_project (l : List Record) (h : l.Sorted (docLe "Transaction ID" 1)) :
    (l.map project).Sorted (docLe "id" 1) := by
  unfold List.Sorted at h ⊢
  rw [List.pairwise_map]
  refine h.imp ?_
  intro a b hab
  unfold docLe at hab ⊢
  rw [if_neg (by decide)] at hab ⊢
  rw [get_project_id, get_project_id]
  exact hab

theorem optimizedFetch_listStore_sorted (rx : RegexEngine) (docs : List Record) (query : Query)
    (skip : Int) (limit : Nat) (rows : List Record)
    (hrows : optimizedFetch (listStore rx docs) query skip limit = Except.ok rows) :
    rows.Sorted (docLe "id" 1) := by
  unfold optimizedFetch at hrows
  split at hrows
  · simp only [listStore] at hrows
    split at hrows
    · cases hrows
    · split at hrows
      · cases hrows
      · cases hrows
        exact sorted_map_project _ (sorted_window _ _ _ _ _)
  · split at hrows
    · cases hrows
    · rename_i data hfind
      cases hrows
      simp only [listStore] at hfind
      split at hfind
      · cases hfind
      · cases hfind
        exact sorted_map_project _ (sorted_window _ _ _ _ _)

/-- C12 as stated fails. On the documents with identifiers 1, 2, 3 and sort
key `id`: `getSalesData` with `sortOrder = 'up'`, a value other than `'asc'`,
answers in ascending order, and `getSalesDataOptimized` with
`sortOrder = 'desc'` does too. -/
theorem other_sort_orders_ascend :
    (getSalesData (listStore fragmentEngine (idDocs 3))
        ⟨1, 3, "", "id", "up", noFilters⟩).data
      = [project (idDoc 1), project (idDoc 2), project (idDoc 3)] ∧
    (match getSalesDataOptimized (listStore fragmentEngine (idDocs 3))
        ⟨1, 3, "", "id", "desc", noFilters⟩ with
      | Except.ok r => r.data
      | Except.error _ => [])
      = [project (idDoc 1), project (idDoc 2), project (idDoc 3)] :=
  ⟨by decide, by decide⟩

/-- C12, amended. In `getSalesData` every call of the first fetch (direct
offset or anchor-range) sorts descending when `sortOrder` is `'desc'` and
ascending for every other value, and on the reference store the fetched
documents are in that order; in `getSalesDataOptimized` the fetch (direct
offset or aggregation) always sorts ascending by identifier, whatever
`sortOrder` is; the request layer reads an absent `sortOrder` as `'desc'`. -/
theorem sort_direction (st : Store) (req : PageRequest) :
    (∀ c ∈ (fetchDataRun st
        (combineQuery (buildFilterQuery req.filters) (buildSearchQuery req.search))
        (effectiveSortField req.sortBy) (sortDirection req.sortOrder)
        ((req.page - 1) * req.limit) req.limit).2,
      c.dir = some (if req.sortOrder = "desc" then -1 else 1)) ∧
    (∀ c ∈ (optimizedFetchRun st
        (combineQuery (buildFilterQuery req.filters) (buildSearchQuery req.search))
        ((req.page - 1) * req.limit) req.limit).2,
      c.dir = some 1) ∧
    (∀ (rx : RegexEngine) (docs data : List Record),
      fetchData (listStore rx docs)
          (combineQuery (buildFilterQuery req.filters) (buildSearchQuery req.search))
          (effectiveSortField req.sortBy) (sortDirection req.sortOrder)
          ((req.page - 1) * req.limit) req.limit = Except.ok data →
      data.Sorted (docLe (effectiveSortField req.sortBy)
        (if req.sortOrder = "desc" then -1 else 1))) ∧
    (∀ (rx : RegexEngine) (docs rows : List Record),
      optimizedFetch (listStore rx docs)
          (combineQuery (buildFilterQuery req.filters) (buildSearchQuery req.search))
          ((req.page - 1) * req.limit) req.limit = Except.ok rows →
      rows.Sorted (docLe "id" 1)) ∧
    sortDirection (sortOrderParam none) = -1 := by
  have hdir : sortDirection req.sortOrder = if req.sortOrder = "desc" then -1 else 1 := by
    unfold sortDirection
    by_cases h : req.sortOrder = "desc" <;> simp [h]
  refine ⟨?_, ?_, ?_, ?_, by decide⟩
  · intro c hc
    rw [← hdir]
    unfold fetchDataRun at hc
    split at hc
    · unfold anchorRangeRun at hc
      split at hc
      · simp only [List.mem_singleton] at hc
        subst hc
        rfl
      · simp only [List.mem_singleton] at hc
        subst hc
        rfl
      · simp only [List.mem_cons, List.mem_singleton, List.not_mem_nil, or_false] at hc
        rcases hc with rfl | rfl <;> rfl
    · simp only [directOffsetRun, List.mem_singleton] at hc
      subst hc
      rfl
  · intro c hc
    unfold optimizedFetchRun at hc
    split at hc
    · simp only [List.mem_singleton] at hc
      subst hc
      rfl
    · split at hc <;>
      · simp only [List.mem_singleton] at hc
        subst hc
        rfl
  · intro rx docs data hdata
    rw [← hdir]
    exact fetchData_listStore_sorted rx docs _ _ _ _ _ data hdata
  · intro rx docs rows hrows
    exact optimizedFetch_listStore_sorted rx docs _ _ _ rows hrows

/-- C12, amended, at `sortOrder = 'up'` on a three-document store: the fetch
of `getSalesData` asks for ascending order. -/
theorem sort_direction_witness :
    ∀ c ∈ (fetchDataRun (listStore fragmentEngine (idDocs 3))
        (combineQuery (buildFilterQuery noFilters) (buildSearchQuery ""))
        (effectiveSortField "id") (sortDirection "up") ((1 - 1) * (3 : Nat)) 3).2,
      c.dir = some 1 :=
  (sort_direction (listStore fragmentEngine (idDocs 3)) ⟨1, 3, "", "id", "up", noFilters⟩).1

/-! ## The total count -/

/-- C13. The total of `getSalesData`: for the empty combined query it is the
store's estimated count, read with the single call
`estimatedDocumentCount`, so `countDocuments` is not called; for a non-empty
query whose `countDocuments` succeeds it is that count; for a non-empty query
whose `countDocuments` fails it is the estimated count, read after the failed
call. A response built by the `try` block carries the total so resolved. -/
theorem total_count_resolution (st : Store) (req : PageRequest) :
    (combineQuery (buildFilterQuery req.filters) (buildSearchQuery req.search) = [] →
      countTotalRun st (combineQuery (buildFilterQuery req.filters) (buildSearchQuery req.search))
        = (st.estimatedDocumentCount, [StoreCall.estimatedDocumentCount])) ∧
    (combineQuery (buildFilterQuery req.filters) (buildSearchQuery req.search) ≠ [] →
      ∀ n, st.countDocuments
          (combineQuery (buildFilterQuery req.filters) (buildSearchQuery req.search))
          = Except.ok n →
        countTotalRun st (combineQuery (buildFilterQuery req.filters) (buildSearchQuery req.search))
          = (Except.ok n,
              [StoreCall.countDocuments
                (combineQuery (buildFilterQuery req.filters) (buildSearchQuery req.search))])) ∧
    (combineQuery (buildFilterQuery req.filters) (buildSearchQuery req.search) ≠ [] →
      ∀ e, st.countDocuments
          (combineQuery (buildFilterQuery req.filters) (buildSearchQuery req.search))
          = Except.error e →
        countTotalRun st (combineQuery (buildFilterQuery req.filters) (buildSearchQuery req.search))
          = (st.estimatedDocumentCount,
              [StoreCall.countDocuments
                (combineQuery (buildFilterQuery req.filters) (buildSearchQuery req.search)),
               StoreCall.estimatedDocumentCount])) ∧
    (∀ r, getSalesDataTry st req = Except.ok r →
      countTotal st (combineQuery (buildFilterQuery req.filters) (buildSearchQuery req.search))
        = Except.ok r.pagination.totalRecords) := by
  refine ⟨?_, ?_, ?_, ?_⟩
  · intro hq
    rw [hq]
    rfl
  · intro hq n hn
    have hk : ¬ Query.keyCount
        (combineQuery (buildFilterQuery req.filters) (buildSearchQuery req.search)) = 0 :=
      fun h => hq (List.length_eq_zero.mp h)
    unfold countTotalRun
    rw [if_neg hk, hn]
  · intro hq e he
    have hk : ¬ Query.keyCount
        (combineQuery (buildFilterQuery req.filters) (buildSearchQuery req.search)) = 0 :=
      fun h => hq (List.length_eq_zero.mp h)
    unfold countTotalRun
    rw [if_neg hk, he]
  · intro r hr
    unfold getSalesDataTry at hr
    simp only [] at hr
    split at hr
    · cases hr
    · split at hr
      · cases hr
      · rename_i totalRecords hcount
        rw [hcount]
        split at hr
        · cases hr
          rfl
        · split at hr
          · cases hr
          · cases hr
            rfl

/-- C13 on a three-document store whose exact count times out, for the
search token `x`: the failed `countDocuments` is followed by the estimated
count, which gives the total 3. -/
theorem total_count_resolution_witness :
    countTotalRun (countTimeoutStore fragmentEngine (idDocs 3))
        (combineQuery (buildFilterQuery noFilters) (buildSearchQuery "x"))
      = (Except.ok 3,
          [StoreCall.countDocuments
            (combineQuery (buildFilterQuery noFilters) (buildSearchQuery "x")),
           StoreCall.estimatedDocumentCount]) :=
  (total_count_resolution (countTimeoutStore fragmentEngine (idDocs 3))
    ⟨1, 10, "x", "id", "asc", noFilters⟩).2.2.1
    (by rw [show combineQuery (buildFilterQuery noFilters) (buildSearchQuery "x") = [_] from rfl]
        exact List.cons_ne_nil _ _)
    "operation exceeded time limit" rfl

/-! ## Store failures at the request layer -/

/-- C14 as stated fails. With a store that cannot be reached, `getSales`
replies with status 200 and a page body whose `error` field is the store's
own message. -/
theorem store_message_in_reply :
    getSales unreachableStore (Except.ok ⟨1, 10, "", "date", "desc", noFilters⟩)
      = { status := 200,
          body := HttpBody.page
            { data := [],
              pagination :=
                { currentPage := 1, totalPages := 1, totalRecords := 0, pageSize := 10,
                  hasNextPage := false, hasPreviousPage := false },
              error := some "connect ECONNREFUSED 10.0.0.5:27017" } } := by
  decide

theorem getSalesDataTry_error_of_fetch (st : Store) (req : PageRequest) (message : String)
    (hfetch : fetchData st
        (combineQuery (buildFilterQuery req.filters) (buildSearchQuery req.search))
        (effectiveSortField req.sortBy) (sortDirection req.sortOrder)
        ((req.page - 1) * req.limit) req.limit = Except.error message) :
    getSalesDataTry st req = Except.error message := by
  unfold getSalesDataTry
  simp only [hfetch]

/-- C14, amended. When a store operation of `getSalesData` fails with a
message and the failure reaches the `catch` block, `getSalesData` does not
throw: the request layer replies with status 200 and the one-page empty
result (no records, page 1 of 1, total 0, no next or previous page) whose
`error` field is that message. A failure of the first fetch is such a
failure. -/
theorem store_failure_reply (st : Store) (req : PageRequest) (message : String)
    (hfail : getSalesDataTry st req = Except.error message) :
    getSales st (Except.ok req)
      = { status := 200,
          body := HttpBody.page
            { data := [],
              pagination :=
                { currentPage := 1, totalPages := 1, totalRecords := 0, pageSize := req.limit,
                  hasNextPage := false, hasPreviousPage := false },
              error := some message } } := by
  unfold getSales getSalesData
  simp only [hfail]

/-- C14, amended, at the store that cannot be reached. -/
theorem store_failure_reply_witness :
    getSales unreachableStore (Except.ok ⟨3, 20, "", "id", "asc", noFilters⟩)
      = { status := 200,
          body := HttpBody.page
            { data := [],
              pagination :=
                { currentPage := 1, totalPages := 1, totalRecords := 0, pageSize := 20,
                  hasNextPage := false, hasPreviousPage := false },
              error := some "connect ECONNREFUSED 10.0.0.5:27017" } } :=
  store_failure_reply unreachableStore ⟨3, 20, "", "id", "asc", noFilters⟩
    "connect ECONNREFUSED 10.0.0.5:27017"
    (getSalesDataTry_error_of_fetch unreachableStore _ _ rfl)

/-! ## The filter-options cache -/

/-- C15. With a snapshot in the cache and `now - lastCacheUpdate < 300000`,
`getFilterOptions` returns that snapshot, makes no store call and leaves the
cache as it is; hence a second call within the period returns the same
snapshot, again without a store call. -/
theorem cache_hit (cmp : Collation) (st : OptionsStore) (now : Int) (cache : CacheState)
    (snapshot : FilterOptions) (hsnap : cache.filterOptionsCache = some snapshot)
    (hfresh : now - cache.lastCacheUpdate < 300000) :
    getFilterOptions cmp st now cache = (snapshot, cache, []) ∧
    ∀ now2 : Int, now2 - cache.lastCacheUpdate < 300000 →
      getFilterOptions cmp st now2 (getFilterOptions cmp st now cache).2.1
        = (snapshot, cache, []) := by
  have hit : ∀ t : Int, t - cache.lastCacheUpdate < 300000 →
      getFilterOptions cmp st t cache = (snapshot, cache, []) := by
    intro t ht
    unfold getFilterOptions
    rw [hsnap]
    have hlt : t - cache.lastCacheUpdate < CACHE_DURATION := by
      unfold CACHE_DURATION
      omega
    simp only [if_pos hlt]
  refine ⟨hit now hfresh, fun now2 h2 => ?_⟩
  rw [hit now hfresh]
  exact hit now2 h2

/-- C15 on a cache filled at time 1000 and read at times 2000 and 300999. -/
theorem cache_hit_witness :
    getFilterOptions codePointCompare sampleOptionsStore 2000 ⟨some emptyOptions, 1000⟩
      = (emptyOptions, ⟨some emptyOptions, 1000⟩, []) ∧
    ∀ now2 : Int, now2 - 1000 < 300000 →
      getFilterOptions codePointCompare sampleOptionsStore now2
          (getFilterOptions codePointCompare sampleOptionsStore 2000
            ⟨some emptyOptions, 1000⟩).2.1
        = (emptyOptions, ⟨some emptyOptions, 1000⟩, []) :=
  cache_hit codePointCompare sampleOptionsStore 2000 ⟨some emptyOptions, 1000⟩ emptyOptions rfl
    (by decide)

/-- A recomputation that succeeds fills the cache, and a call less than five
minutes later returns the snapshot just built without a store call. -/
theorem second_call_within_period (cmp : Collation) (st : OptionsStore) (now now2 : Int)
    (cache : CacheState) (options : FilterOptions) (calls : List OptionsCall)
    (hmiss : cache.filterOptionsCache = none ∨ ¬ now - cache.lastCacheUpdate < 300000)
    (hok : recomputeOptions cmp st = (Except.ok options, calls))
    (hsoon : now2 - now < 300000) :
    (getFilterOptions cmp st now cache).1 = options ∧
    getFilterOptions cmp st now2 (getFilterOptions cmp st now cache).2.1
      = (options, ⟨some options, now⟩, []) := by
  have hfirst : getFilterOptions cmp st now cache = (options, ⟨some options, now⟩, calls) := by
    unfold getFilterOptions
    cases hc : cache.filterOptionsCache with
    | none => simp only [hok]
    | some snapshot =>
      have hstale : ¬ now - cache.lastCacheUpdate < CACHE_DURATION := by
        rcases hmiss with h | h
        · rw [hc] at h
          cases h
        · unfold CACHE_DURATION
          omega
      simp only [if_neg hstale, hok]
  rw [hfirst]
  exact ⟨rfl, (cache_hit cmp st now2 ⟨some options, now⟩ options rfl hsoon).1⟩

theorem recomputeOptions_error (cmp : Collation) (st : OptionsStore)
    (hfail : (∃ e, st.distinct "Customer Region" = Except.error e) ∨
      (∃ e, st.distinct "Gender" = Except.error e) ∨
      (∃ e, st.distinct "Product Category" = Except.error e) ∨
      (∃ e, st.distinct "Payment Method" = Except.error e) ∨
      (∃ e, st.ageAggregate = Except.error e) ∨
      (∃ e, st.tagSample = Except.error e)) :
    ∃ e calls, recomputeOptions cmp st = (Except.error e, calls) := by
  unfold recomputeOptions
  cases h1 : st.distinct "Customer Region" with
  | error e => exact ⟨_, _, rfl⟩
  | ok v1 =>
    cases h2 : st.distinct "Gender" with
    | error e => exact ⟨_, _, rfl⟩
    | ok v2 =>
      cases h3 : st.distinct "Product Category" with
      | error e => exact ⟨_, _, rfl⟩
      | ok v3 =>
        cases h4 : st.distinct "Payment Method" with
        | error e => exact ⟨_, _, rfl⟩
        | ok v4 =>
          cases h5 : st.ageAggregate with
          | error e => exact ⟨_, _, rfl⟩
          | ok v5 =>
            cases h6 : st.tagSample with
            | error e => exact ⟨_, _, rfl⟩
            | ok v6 =>
              rcases hfail with ⟨e, he⟩ | ⟨e, he⟩ | ⟨e, he⟩ | ⟨e, he⟩ | ⟨e, he⟩ | ⟨e, he⟩
              · rw [h1] at he; cases he
              · rw [h2] at he; cases he
              · rw [h3] at he; cases he
              · rw [h4] at he; cases he
              · rw [h5] at he; cases he
              · rw [h6] at he; cases he

/-- C16. When `getFilterOptions` recomputes (no snapshot, or the snapshot is
five minutes old or older) and one of the store queries fails (one of the
four `distinct` scans, the age aggregation or the tag sample), it returns
the snapshot with empty `customerRegions`, `genders`, `productCategories`,
`paymentMethods` and `tags` and with `ageRange = {min: 0, max: 100}`; the
cache is left as it was. -/
theorem refresh_failure_gives_empty (cmp : Collation) (st : OptionsStore) (now : Int)
    (cache : CacheState)
    (hmiss : cache.filterOptionsCache = none ∨ ¬ now - cache.lastCacheUpdate < 300000)
    (hfail : (∃ e, st.distinct "Customer Region" = Except.error e) ∨
      (∃ e, st.distinct "Gender" = Except.error e) ∨
      (∃ e, st.distinct "Product Category" = Except.error e) ∨
      (∃ e, st.distinct "Payment Method" = Except.error e) ∨
      (∃ e, st.ageAggregate = Except.error e) ∨
      (∃ e, st.tagSample = Except.error e)) :
    (getFilterOptions cmp st now cache).1 =
      { customerRegions := [], genders := [], productCategories := [], paymentMethods := [],
        tags := [], ageRange := { min := Value.num 0, max := Value.num 100 } } ∧
    (getFilterOptions cmp st now cache).2.1 = cache := by
  obtain ⟨e, calls, herr⟩ := recomputeOptions_error cmp st hfail
  unfold getFilterOptions
  cases hc : cache.filterOptionsCache with
  | none => simp [herr, emptyOptions]
  | some snapshot =>
    have hstale : ¬ now - cache.lastCacheUpdate < CACHE_DURATION := by
      rcases hmiss with h | h
      · rw [hc] at h
        cases h
      · unfold CACHE_DURATION
        omega
    simp [if_neg hstale, herr, emptyOptions]

/-- C16 on an empty cache and a store whose tag sample times out. -/
theorem refresh_failure_gives_empty_witness :
    (getFilterOptions codePointCompare tagTimeoutStore 1000 ⟨none, 0⟩).1 =
      { customerRegions := [], genders := [], productCategories := [], paymentMethods := [],
        tags := [], ageRange := { min := Value.num 0, max := Value.num 100 } } ∧
    (getFilterOptions codePointCompare tagTimeoutStore 1000 ⟨none, 0⟩).2.1 = ⟨none, 0⟩ :=
  refresh_failure_gives_empty codePointCompare tagTimeoutStore 1000 ⟨none, 0⟩ (Or.inl rfl)
    (Or.inr (Or.inr (Or.inr (Or.inr (Or.inr ⟨_, rfl⟩)))))

/-! ## The tag vocabulary -/

theorem jsTrim_idem (s : String) : jsTrim (jsTrim s) = jsTrim s := by
  obtain ⟨l⟩ := s
  have hform : ∀ m : List Char, jsTrim ⟨m⟩
      = ⟨List.rdropWhile isJsWhitespace (m.dropWhile isJsWhitespace)⟩ := fun _ => rfl
  rw [hform l, hform]
  congr 1
  have hhead : (List.rdropWhile isJsWhitespace (l.dropWhile isJsWhitespace)).dropWhile
      isJsWhitespace = List.rdropWhile isJsWhitespace (l.dropWhile isJsWhitespace) := by
    rw [List.dropWhile_eq_self_iff]
    intro hl
    have hpre : List.rdropWhile isJsWhitespace (l.dropWhile isJsWhitespace)
        <+: l.dropWhile isJsWhitespace := List.rdropWhile_prefix _ _
    have hlen : 0 < (l.dropWhile isJsWhitespace).length :=
      Nat.lt_of_lt_of_le hl hpre.length_le
    have hm := (List.dropWhile_eq_self_iff (p := isJsWhitespace)
      (l := l.dropWhile isJsWhitespace)).mp (List.dropWhile_idempotent _ _) hlen
    have hget := hpre.getElem hl
    simp only [List.get_eq_getElem] at hm ⊢
    rw [hget]
    exact hm
  rw [hhead, List.rdropWhile_idempotent]

theorem length_pos_iff_ne_empty (t : String) : (decide (t.length > 0) = true) ↔ t ≠ "" := by
  obtain ⟨l⟩ := t
  cases l with
  | nil => simp [String.length]
  | cons a u =>
    simp only [String.length, List.length_cons, gt_iff_lt, Nat.zero_lt_succ, decide_True, true_iff]
    intro h
    exact List.cons_ne_nil _ _ (congrArg String.data h)

theorem mem_tagSegments (t s : String) :
    t ∈ tagSegments s ↔
      t ≠ "" ∧ t ∈ (splitOnComma s.data).map (fun seg => jsTrim ⟨seg⟩) := by
  unfold tagSegments
  rw [List.mem_filter, length_pos_iff_ne_empty]
  exact And.comm

theorem mem_setAdd (acc : List String) (x t : String) :
    t ∈ setAdd acc x ↔ t ∈ acc ∨ t = x := by
  unfold setAdd
  split
  · constructor
    · exact Or.inl
    · rintro (h | rfl)
      · exact h
      · assumption
  · simp

theorem nodup_setAdd (acc : List String) (x : String) (h : acc.Nodup) :
    (setAdd acc x).Nodup := by
  unfold setAdd
  split
  · exact h
  · rename_i hx
    rw [List.nodup_append]
    refine ⟨h, List.nodup_singleton x, ?_⟩
    intro a ha hax
    rw [List.mem_singleton] at hax
    exact hx (hax ▸ ha)

theorem mem_foldl_setAdd (xs acc : List String) (t : String) :
    t ∈ xs.foldl setAdd acc ↔ t ∈ acc ∨ t ∈ xs := by
  induction xs generalizing acc with
  | nil => simp
  | cons x xs ih =>
    rw [List.foldl_cons, ih, mem_setAdd, List.mem_cons]
    tauto

theorem nodup_foldl_setAdd (xs acc : List String) (h : acc.Nodup) :
    (xs.foldl setAdd acc).Nodup := by
  induction xs generalizing acc with
  | nil => exact h
  | cons x xs ih => exact ih _ (nodup_setAdd acc x h)

theorem tagSegments_empty : tagSegments "" = [] := by decide

theorem mem_collectStep (acc : List String) (item : Record) (t : String) :
    t ∈ (match item.get "Tags" with
      | Value.str s => if s != "" then (tagSegments s).foldl setAdd acc else acc
      | _ => acc) ↔
    t ∈ acc ∨ ∃ s, item.get "Tags" = Value.str s ∧ t ∈ tagSegments s := by
  cases hv : item.get "Tags" with
  | null => simp
  | num n => simp
  | inf => simp
  | str s =>
    by_cases hs : s = ""
    · subst hs
      simp [tagSegments_empty]
    · simp [hs, mem_foldl_setAdd]

theorem nodup_collectStep (acc : List String) (item : Record) (h : acc.Nodup) :
    (match item.get "Tags" with
      | Value.str s => if s != "" then (tagSegments s).foldl setAdd acc else acc
      | _ => acc).Nodup := by
  split
  · split
    · exact nodup_foldl_setAdd _ _ h
    · exact h
  · exact h

theorem mem_collectFold (sample : List Record) (acc : List String) (t : String) :
    t ∈ sample.foldl
        (fun tagsSet item =>
          match item.get "Tags" with
          | Value.str s => if s != "" then (tagSegments s).foldl setAdd tagsSet else tagsSet
          | _ => tagsSet) acc ↔
      t ∈ acc ∨ ∃ item ∈ sample, ∃ s, item.get "Tags" = Value.str s ∧ t ∈ tagSegments s := by
  induction sample generalizing acc with
  | nil => simp
  | cons item rest ih =>
    rw [List.foldl_cons, ih, mem_collectStep]
    simp only [List.mem_cons, exists_eq_or_imp]
    exact or_assoc

theorem nodup_collectFold (sample : List Record) (acc : List String) (h : acc.Nodup) :
    (sample.foldl
        (fun tagsSet item =>
          match item.get "Tags" with
          | Value.str s => if s != "" then (tagSegments s).foldl setAdd tagsSet else tagsSet
          | _ => tagsSet) acc).Nodup := by
  induction sample generalizing acc with
  | nil => exact h
  | cons item rest ih => exact ih _ (nodup_collectStep acc item h)

/-- The collected set holds exactly the trimmed non-empty pieces of the tag
strings of the sample. -/
theorem mem_collectTags (sample : List Record) (t : String) :
    t ∈ collectTags sample ↔
      ∃ item ∈ sample, ∃ s, item.get "Tags" = Value.str s ∧ t ∈ tagSegments s := by
  unfold collectTags
  rw [mem_collectFold]
  simp

theorem nodup_collectTags (sample : List Record) : (collectTags sample).Nodup :=
  nodup_collectFold sample [] List.nodup_nil

theorem mem_collectTags_tagDocs (strings : List String) (t : String) :
    t ∈ collectTags (tagDocs strings) ↔ t ∈ trimmedSegments strings := by
  rw [mem_collectTags]
  unfold tagDocs trimmedSegments
  simp only [List.mem_map, List.mem_filter, List.mem_flatMap, decide_eq_true_eq]
  constructor
  · rintro ⟨item, ⟨s, hs, rfl⟩, s2, hget, ht⟩
    have hs2 : s2 = s := by
      have h : Record.get [("Tags", Value.str s)] "Tags" = Value.str s := rfl
      rw [h] at hget
      cases hget
      rfl
    subst hs2
    rw [mem_tagSegments, List.mem_map] at ht
    exact ⟨⟨s2, hs, ht.2⟩, ht.1⟩
  · rintro ⟨⟨s, hs, hmem⟩, hne⟩
    refine ⟨_, ⟨s, hs, rfl⟩, s, rfl, ?_⟩
    rw [mem_tagSegments, List.mem_map]
    exact ⟨hne, hmem⟩

theorem char_eq_of_toNat_eq (x y : Char) (h : x.toNat = y.toNat) : x = y := by
  rw [← Char.ofNat_toNat x, ← Char.ofNat_toNat y, h]

theorem lexLe_antisymm (a b : List Char) (hab : lexLe a b = true) (hba : lexLe b a = true) :
    a = b := by
  induction a generalizing b with
  | nil =>
    cases b with
    | nil => rfl
    | cons y ys => simp [lexLe] at hba
  | cons x xs ih =>
    cases b with
    | nil => simp [lexLe] at hab
    | cons y ys =>
      simp only [lexLe, Bool.or_eq_true, Bool.and_eq_true, decide_eq_true_eq,
        beq_iff_eq] at hab hba
      rcases hab with h1 | ⟨h1, h1'⟩
      · rcases hba with h2 | ⟨h2, _⟩
        · omega
        · omega
      · rcases hba with h2 | ⟨_, h2'⟩
        · omega
        · rw [char_eq_of_toNat_eq x y h1, ih ys h1' h2']

theorem codePointCompare_le (a b : String) :
    codePointCompare a b ≤ 0 ↔ lexLe a.data b.data = true := by
  unfold codePointCompare
  by_cases h1 : lexLe a.data b.data = true
  · by_cases h2 : lexLe b.data a.data = true <;> simp [h1, h2]
  · simp [h1]

/-- The collected tags and the distinct pieces of the specification are the
same set without repetition, listed in possibly different orders. -/
theorem collectTags_perm (strings : List String) :
    (collectTags (tagDocs strings)).Perm (trimmedSegments strings).dedup := by
  rw [List.perm_ext_iff_of_nodup (nodup_collectTags _) (List.nodup_dedup _)]
  intro t
  rw [mem_collectTags_tagDocs, List.mem_dedup]

/-- C17. For a collation that is a total order, the tag vocabulary computed
from the sampled tag strings is the first 100 entries of the sorted list of
the distinct, trimmed, non-empty comma-separated pieces of those strings;
it has no duplicates, no empty entry and no entry that trimming would change,
it is in ascending order and it has at most 100 entries. -/
theorem tag_vocabulary (cmp : Collation) (strings : List String)
    (htotal : ∀ a b, cmp a b ≤ 0 ∨ cmp b a ≤ 0)
    (htrans : ∀ a b c, cmp a b ≤ 0 → cmp b c ≤ 0 → cmp a c ≤ 0)
    (hanti : ∀ a b, cmp a b ≤ 0 → cmp b a ≤ 0 → a = b) :
    tagVocabulary cmp (tagDocs strings) = tagVocabularySpec cmp strings ∧
    (tagVocabulary cmp (tagDocs strings)).Nodup ∧
    (∀ t ∈ tagVocabulary cmp (tagDocs strings), t ≠ "" ∧ jsTrim t = t) ∧
    (tagVocabulary cmp (tagDocs strings)).Sorted (fun a b => cmp a b ≤ 0) ∧
    (tagVocabulary cmp (tagDocs strings)).length ≤ 100 := by
  haveI : IsTotal String (fun a b => cmp a b ≤ 0) := ⟨htotal⟩
  haveI : IsTrans String (fun a b => cmp a b ≤ 0) := ⟨htrans⟩
  haveI : IsAntisymm String (fun a b => cmp a b ≤ 0) := ⟨hanti⟩
  have hsorted : ((collectTags (tagDocs strings)).insertionSort
      (fun a b => cmp a b ≤ 0)).Sorted (fun a b => cmp a b ≤ 0) :=
    List.sorted_insertionSort _ _
  have hperm : ((collectTags (tagDocs strings)).insertionSort (fun a b => cmp a b ≤ 0)).Perm
      (collectTags (tagDocs strings)) := List.perm_insertionSort _ _
  have heq : (collectTags (tagDocs strings)).insertionSort (fun a b => cmp a b ≤ 0)
      = (trimmedSegments strings).dedup.insertionSort (fun a b => cmp a b ≤ 0) :=
    List.eq_of_perm_of_sorted
      ((hperm.trans (collectTags_perm strings)).trans (List.perm_insertionSort _ _).symm)
      hsorted (List.sorted_insertionSort _ _)
  have hsub : List.Sublist (tagVocabulary cmp (tagDocs strings))
      ((collectTags (tagDocs strings)).insertionSort (fun a b => cmp a b ≤ 0)) :=
    List.take_sublist _ _
  refine ⟨?_, ?_, ?_, ?_, ?_⟩
  · unfold tagVocabulary tagVocabularySpec
    rw [heq]
  · exact (hperm.nodup_iff.mpr (nodup_collectTags _)).sublist hsub
  · intro t ht
    have hmem : t ∈ trimmedSegments strings :=
      (mem_collectTags_tagDocs strings t).mp (hperm.mem_iff.mp (hsub.subset ht))
    unfold trimmedSegments at hmem
    simp only [List.mem_filter, List.mem_flatMap, List.mem_map, decide_eq_true_eq] at hmem
    obtain ⟨⟨s, _, seg, _, rfl⟩, hne⟩ := hmem
    exact ⟨hne, jsTrim_idem _⟩
  · exact hsorted.sublist hsub
  · exact List.length_take_le _ _

/-- C17 under the code-point collation, for the tag strings
`"organic, gift"` and `"gift,new"`. -/
theorem tag_vocabulary_witness :
    tagVocabulary codePointCompare (tagDocs ["organic, gift", "gift,new"])
      = tagVocabularySpec codePointCompare ["organic, gift", "gift,new"] ∧
    tagVocabulary codePointCompare (tagDocs ["organic, gift", "gift,new"])
      = ["gift", "new", "organic"] :=
  ⟨(tag_vocabulary codePointCompare ["organic, gift", "gift,new"]
      (fun a b => by
        rw [codePointCompare_le, codePointCompare_le]
        exact lexLe_total _ _)
      (fun a b c hab hbc => by
        rw [codePointCompare_le] at hab hbc ⊢
        exact lexLe_trans _ _ _ hab hbc)
      (fun a b hab hba => by
        rw [codePointCompare_le] at hab hba
        exact String.ext (lexLe_antisymm _ _ hab hba))).1,
   by decide⟩

/-! ## The fallback fetch -/

theorem validPage_gt_one_iff (page totalPages : Int) (h1 : 1 ≤ totalPages)
    (hle : page ≤ totalPages) :
    (validPageOf page totalPages > 1 ∧ validPageOf page totalPages ≤ totalPages) ↔ 1 < page := by
  unfold validPageOf
  rw [min_eq_left (max_le h1 hle)]
  constructor
  · rintro ⟨h, _⟩
    rcases le_or_lt page 1 with hp | hp
    · rw [max_eq_left hp] at h
      omega
    · exact hp
  · intro hp
    rw [max_eq_right (le_of_lt hp)]
    exact ⟨hp, hle⟩

/-- C18 as stated fails, both ways, on a store that reports 20 documents and
answers every fetch with no records, for pages of size 10 (two pages).
Page 2 is the last page: the fallback fetch is issued as the third call.
Page 1 is valid, is not the last page and the result set is not empty: no
fallback fetch is issued. -/
theorem fallback_on_last_page_not_on_first :
    (getSalesDataRun (staleCountStore 20) ⟨2, 10, "", "id", "desc", noFilters⟩).2
      = [StoreCall.find [] "Transaction ID" (-1) (some 10) 10,
         StoreCall.estimatedDocumentCount,
         StoreCall.find [] "Transaction ID" 1 (some 10) 10] ∧
    (getSalesDataRun (staleCountStore 20) ⟨1, 10, "", "id", "desc", noFilters⟩).2
      = [StoreCall.find [] "Transaction ID" (-1) (some 0) 10,
         StoreCall.estimatedDocumentCount] :=
  ⟨rfl, rfl⟩

theorem fallback_fetch_success (st : Store) (req : PageRequest) (data : List Record)
    (calls1 : List StoreCall) (totalRecords : Nat) (calls2 : List StoreCall)
    (hfetch : fetchDataRun st
        (combineQuery (buildFilterQuery req.filters) (buildSearchQuery req.search))
        (effectiveSortField req.sortBy) (sortDirection req.sortOrder)
        ((req.page - 1) * req.limit) req.limit = (Except.ok data, calls1))
    (hcount : countTotalRun st
        (combineQuery (buildFilterQuery req.filters) (buildSearchQuery req.search))
        = (Except.ok totalRecords, calls2)) :
    (getSalesDataRun st req).2 =
      calls1 ++ calls2 ++
        (if data = [] ∧ 1 < req.page ∧ req.page ≤ totalPagesOf totalRecords req.limit then
          [StoreCall.find
            (combineQuery (buildFilterQuery req.filters) (buildSearchQuery req.search))
            "Transaction ID" 1 (some ((req.page - 1) * req.limit)) req.limit]
        else []) ∧
    (¬ (data = [] ∧ 1 < req.page ∧ req.page ≤ totalPagesOf totalRecords req.limit) →
      (getSalesDataRun st req).1.data =
        if req.page > totalPagesOf totalRecords req.limit then [] else data.map project) ∧
    ((data = [] ∧ 1 < req.page ∧ req.page ≤ totalPagesOf totalRecords req.limit) →
      ∀ data2, st.find
          (combineQuery (buildFilterQuery req.filters) (buildSearchQuery req.search))
          "Transaction ID" 1 (some ((req.page - 1) * req.limit)) req.limit = Except.ok data2 →
        (getSalesDataRun st req).1.data = data2.map project) := by
  have htp := one_le_totalPagesOf totalRecords req.limit
  have hlen : data.length = 0 ↔ data = [] := List.length_eq_zero
  by_cases hbeyond : req.page > totalPagesOf totalRecords req.limit
  · have hcond : ¬ (data = [] ∧ 1 < req.page ∧
        req.page ≤ totalPagesOf totalRecords req.limit) := by
      rintro ⟨_, _, h⟩
      omega
    unfold getSalesDataRun getSalesDataTryRun
    simp only [hfetch, hcount, if_pos hbeyond, if_neg hcond, List.append_nil]
    exact ⟨trivial, fun _ => trivial, fun h => absurd h hcond⟩
  · have hle : req.page ≤ totalPagesOf totalRecords req.limit := by omega
    have hiff := validPage_gt_one_iff req.page _ htp hle
    by_cases hcond : data = [] ∧ 1 < req.page ∧
        req.page ≤ totalPagesOf totalRecords req.limit
    · have hcode : data.length = 0 ∧
          validPageOf req.page (totalPagesOf totalRecords req.limit) > 1 ∧
          validPageOf req.page (totalPagesOf totalRecords req.limit)
            ≤ totalPagesOf totalRecords req.limit :=
        ⟨hlen.mpr hcond.1, hiff.mpr hcond.2.1⟩
      unfold getSalesDataRun getSalesDataTryRun
      simp only [hfetch, hcount, if_neg hbeyond, if_pos hcode, if_pos hcond]
      refine ⟨?_, fun h => absurd hcond h, ?_⟩
      · cases st.find
          (combineQuery (buildFilterQuery req.filters) (buildSearchQuery req.search))
          "Transaction ID" 1 (some ((req.page - 1) * req.limit)) req.limit <;> rfl
      · intro _ data2 h2
        rw [h2]
    · have hcode : ¬ (data.length = 0 ∧
          validPageOf req.page (totalPagesOf totalRecords req.limit) > 1 ∧
          validPageOf req.page (totalPagesOf totalRecords req.limit)
            ≤ totalPagesOf totalRecords req.limit) := by
        rintro ⟨h0, h12⟩
        exact hcond ⟨hlen.mp h0, hiff.mp h12, hle⟩
      unfold getSalesDataRun getSalesDataTryRun
      simp only [hfetch, hcount, if_neg hbeyond, if_neg hcode, if_neg hcond, List.append_nil]
      exact ⟨trivial, fun _ => trivial, fun h => absurd h hcond⟩

theorem getSalesDataRun_fetch_failed (st : Store) (req : PageRequest) (message : String)
    (calls1 : List StoreCall)
    (hfetch : fetchDataRun st
        (combineQuery (buildFilterQuery req.filters) (buildSearchQuery req.search))
        (effectiveSortField req.sortBy) (sortDirection req.sortOrder)
        ((req.page - 1) * req.limit) req.limit = (Except.error message, calls1)) :
    getSalesDataRun st req =
      ({ data := [],
         pagination :=
           { currentPage := 1, totalPages := 1, totalRecords := 0, pageSize := req.limit,
             hasNextPage := false, hasPreviousPage := false },
         error := some message }, calls1) := by
  unfold getSalesDataRun getSalesDataTryRun
  simp only [hfetch]

theorem getSalesDataRun_count_failed (st : Store) (req : PageRequest) (data : List Record)
    (calls1 : List StoreCall) (message : String) (calls2 : List StoreCall)
    (hfetch : fetchDataRun st
        (combineQuery (buildFilterQuery req.filters) (buildSearchQuery req.search))
        (effectiveSortField req.sortBy) (sortDirection req.sortOrder)
        ((req.page - 1) * req.limit) req.limit = (Except.ok data, calls1))
    (hcount : countTotalRun st
        (combineQuery (buildFilterQuery req.filters) (buildSearchQuery req.search))
        = (Except.error message, calls2)) :
    getSalesDataRun st req =
      ({ data := [],
         pagination :=
           { currentPage := 1, totalPages := 1, totalRecords := 0, pageSize := req.limit,
             hasNextPage := false, hasPreviousPage := false },
         error := some message }, calls1 ++ calls2) := by
  unfold getSalesDataRun getSalesDataTryRun
  simp only [hfetch, hcount]

/-- C18, amended. For `limit >= 1`. When the first fetch and the count
succeed, the calls of `getSalesData` are those of the first fetch, those of
the count and then the fallback fetch (by `Transaction ID` ascending, same
skip and limit), the last one exactly when the first fetch returned no record
and `1 < page <= totalPages`; without the fallback the response rows are
those of the first fetch, or none when `page > totalPages`; with it they are
the rows of the fallback fetch. When the first fetch fails, the calls are
those of the first fetch alone, and when the count fails, those of the first
fetch and of the count: no fallback fetch is made, and the response is the
error result without rows. -/
theorem fallback_fetch (st : Store) (req : PageRequest) (hlimit : 1 ≤ req.limit) :
    (∀ (data : List Record) (calls1 : List StoreCall) (totalRecords : Nat)
        (calls2 : List StoreCall),
      fetchDataRun st
          (combineQuery (buildFilterQuery req.filters) (buildSearchQuery req.search))
          (effectiveSortField req.sortBy) (sortDirection req.sortOrder)
          ((req.page - 1) * req.limit) req.limit = (Except.ok data, calls1) →
      countTotalRun st
          (combineQuery (buildFilterQuery req.filters) (buildSearchQuery req.search))
          = (Except.ok totalRecords, calls2) →
      (getSalesDataRun st req).2 =
        calls1 ++ calls2 ++
          (if data = [] ∧ 1 < req.page ∧ req.page ≤ totalPagesOf totalRecords req.limit then
            [StoreCall.find
              (combineQuery (buildFilterQuery req.filters) (buildSearchQuery req.search))
              "Transaction ID" 1 (some ((req.page - 1) * req.limit)) req.limit]
          else []) ∧
      (¬ (data = [] ∧ 1 < req.page ∧ req.page ≤ totalPagesOf totalRecords req.limit) →
        (getSalesDataRun st req).1.data =
          if req.page > totalPagesOf totalRecords req.limit then [] else data.map project) ∧
      ((data = [] ∧ 1 < req.page ∧ req.page ≤ totalPagesOf totalRecords req.limit) →
        ∀ data2, st.find
            (combineQuery (buildFilterQuery req.filters) (buildSearchQuery req.search))
            "Transaction ID" 1 (some ((req.page - 1) * req.limit)) req.limit
            = Except.ok data2 →
          (getSalesDataRun st req).1.data = data2.map project)) ∧
    (∀ (message : String) (calls1 : List StoreCall),
      fetchDataRun st
          (combineQuery (buildFilterQuery req.filters) (buildSearchQuery req.search))
          (effectiveSortField req.sortBy) (sortDirection req.sortOrder)
          ((req.page - 1) * req.limit) req.limit = (Except.error message, calls1) →
      getSalesDataRun st req =
        ({ data := [],
           pagination :=
             { currentPage := 1, totalPages := 1, totalRecords := 0, pageSize := req.limit,
               hasNextPage := false, hasPreviousPage := false },
           error := some message }, calls1)) ∧
    (∀ (data : List Record) (calls1 : List StoreCall) (message : String)
        (calls2 : List StoreCall),
      fetchDataRun st
          (combineQuery (buildFilterQuery req.filters) (buildSearchQuery req.search))
          (effectiveSortField req.sortBy) (sortDirection req.sortOrder)
          ((req.page - 1) * req.limit) req.limit = (Except.ok data, calls1) →
      countTotalRun st
          (combineQuery (buildFilterQuery req.filters) (buildSearchQuery req.search))
          = (Except.error message, calls2) →
      getSalesDataRun st req =
        ({ data := [],
           pagination :=
             { currentPage := 1, totalPages := 1, totalRecords := 0, pageSize := req.limit,
               hasNextPage := false, hasPreviousPage := false },
           error := some message }, calls1 ++ calls2)) := by
  have _ := hlimit
  exact ⟨fun data calls1 totalRecords calls2 hfetch hcount =>
      fallback_fetch_success st req data calls1 totalRecords calls2 hfetch hcount,
    fun message calls1 hfetch => getSalesDataRun_fetch_failed st req message calls1 hfetch,
    fun data calls1 message calls2 hfetch hcount =>
      getSalesDataRun_count_failed st req data calls1 message calls2 hfetch hcount⟩

/-- C18, amended, on the store that reports 20 documents and fetches nothing:
for page 2 of size 10 the fallback fetch is the third and last call. -/
theorem fallback_fetch_witness :
    (getSalesDataRun (staleCountStore 20) ⟨2, 10, "", "id", "desc", noFilters⟩).2 =
      [StoreCall.find [] "Transaction ID" (-1) (some 10) 10] ++
        [StoreCall.estimatedDocumentCount] ++
        (if ([] : List Record) = [] ∧ (1 : Int) < 2 ∧ (2 : Int) ≤ totalPagesOf 20 10 then
          [StoreCall.find [] "Transaction ID" 1 (some 10) 10]
        else []) :=
  ((fallback_fetch (staleCountStore 20) ⟨2, 10, "", "id", "desc", noFilters⟩ (by decide)).1 []
    [StoreCall.find [] "Transaction ID" (-1) (some 10) 10] 20
    [StoreCall.estimatedDocumentCount] rfl rfl).1

/-! ## The choice of the retrieval strategy -/

theorem anchorRangeRun_calls (st : Store) (query : Query) (field : String) (dir skip : Int)
    (limit : Nat) :
    (∃ rest, (anchorRangeRun st query field dir skip limit).2
      = StoreCall.findOne [] "Transaction ID" dir skip :: rest) ∧
    ∀ c ∈ (anchorRangeRun st query field dir skip limit).2, c.isFindWithSkip = false := by
  unfold anchorRangeRun
  split
  · refine ⟨⟨[], rfl⟩, fun c hc => ?_⟩
    simp only [List.mem_singleton] at hc
    subst hc
    rfl
  · refine ⟨⟨[], rfl⟩, fun c hc => ?_⟩
    simp only [List.mem_singleton] at hc
    subst hc
    rfl
  · refine ⟨⟨_, rfl⟩, fun c hc => ?_⟩
    simp only [List.mem_cons, List.mem_singleton, List.not_mem_nil, or_false] at hc
    rcases hc with rfl | rfl <;> rfl

/-- C19. The first fetch is chosen by the offset `(page - 1) * limit` alone,
for every store, search, filters, sort key and sort order. In
`getSalesData`: beyond 500000 it is the anchor-range procedure, which starts
with the anchor lookup and makes no `find` with a skip; up to 500000 it is
the direct-offset procedure, the single `find` with that skip. In
`getSalesDataOptimized`: beyond 100000 it is the single aggregation pipeline;
up to 100000 it is the single `find` with that skip. -/
theorem strategy_by_offset (st : Store) (req : PageRequest) :
    ((req.page - 1) * req.limit > 500000 →
      fetchDataRun st (combineQuery (buildFilterQuery req.filters) (buildSearchQuery req.search))
          (effectiveSortField req.sortBy) (sortDirection req.sortOrder)
          ((req.page - 1) * req.limit) req.limit
        = anchorRangeRun st
          (combineQuery (buildFilterQuery req.filters) (buildSearchQuery req.search))
          (effectiveSortField req.sortBy) (sortDirection req.sortOrder)
          ((req.page - 1) * req.limit) req.limit ∧
      (∃ rest, (fetchDataRun st
          (combineQuery (buildFilterQuery req.filters) (buildSearchQuery req.search))
          (effectiveSortField req.sortBy) (sortDirection req.sortOrder)
          ((req.page - 1) * req.limit) req.limit).2
        = StoreCall.findOne [] "Transaction ID" (sortDirection req.sortOrder)
            ((req.page - 1) * req.limit) :: rest) ∧
      ∀ c ∈ (fetchDataRun st
          (combineQuery (buildFilterQuery req.filters) (buildSearchQuery req.search))
          (effectiveSortField req.sortBy) (sortDirection req.sortOrder)
          ((req.page - 1) * req.limit) req.limit).2, c.isFindWithSkip = false) ∧
    ((req.page - 1) * req.limit ≤ 500000 →
      fetchDataRun st (combineQuery (buildFilterQuery req.filters) (buildSearchQuery req.search))
          (effectiveSortField req.sortBy) (sortDirection req.sortOrder)
          ((req.page - 1) * req.limit) req.limit
        = (st.find (combineQuery (buildFilterQuery req.filters) (buildSearchQuery req.search))
            (effectiveSortField req.sortBy) (sortDirection req.sortOrder)
            (some ((req.page - 1) * req.limit)) req.limit,
           [StoreCall.find
             (combineQuery (buildFilterQuery req.filters) (buildSearchQuery req.search))
             (effectiveSortField req.sortBy) (sortDirection req.sortOrder)
             (some ((req.page - 1) * req.limit)) req.limit])) ∧
    ((req.page - 1) * req.limit > 100000 →
      (optimizedFetchRun st
          (combineQuery (buildFilterQuery req.filters) (buildSearchQuery req.search))
          ((req.page - 1) * req.limit) req.limit).2
        = [StoreCall.aggregate
            (if Query.keyCount
                (combineQuery (buildFilterQuery req.filters) (buildSearchQuery req.search)) > 0
              then some (combineQuery (buildFilterQuery req.filters) (buildSearchQuery req.search))
              else none)
            "Transaction ID" 1 ((req.page - 1) * req.limit) req.limit]) ∧
    ((req.page - 1) * req.limit ≤ 100000 →
      (optimizedFetchRun st
          (combineQuery (buildFilterQuery req.filters) (buildSearchQuery req.search))
          ((req.page - 1) * req.limit) req.limit).2
        = [StoreCall.find
            (combineQuery (buildFilterQuery req.filters) (buildSearchQuery req.search))
            "Transaction ID" 1 (some ((req.page - 1) * req.limit)) req.limit]) := by
  refine ⟨fun h => ?_, fun h => ?_, fun h => ?_, fun h => ?_⟩
  · have heq : fetchDataRun st
        (combineQuery (buildFilterQuery req.filters) (buildSearchQuery req.search))
        (effectiveSortField req.sortBy) (sortDirection req.sortOrder)
        ((req.page - 1) * req.limit) req.limit
        = anchorRangeRun st
          (combineQuery (buildFilterQuery req.filters) (buildSearchQuery req.search))
          (effectiveSortField req.sortBy) (sortDirection req.sortOrder)
          ((req.page - 1) * req.limit) req.limit := by
      unfold fetchDataRun
      rw [if_pos h]
    rw [heq]
    exact ⟨rfl, anchorRangeRun_calls st _ _ _ _ _⟩
  · unfold fetchDataRun
    rw [if_neg (by omega)]
    rfl
  · unfold optimizedFetchRun
    rw [if_pos h]
  · unfold optimizedFetchRun
    rw [if_neg (by omega)]
    split <;> rfl

/-- C19 at page 60001 of size 10, offset 600000, on the three-document
reference store: the fetch of `getSalesData` starts with the anchor lookup. -/
theorem strategy_by_offset_witness :
    ∃ rest, (fetchDataRun (listStore fragmentEngine (idDocs 3))
        (combineQuery (buildFilterQuery noFilters) (buildSearchQuery "Asha"))
        (effectiveSortField "date") (sortDirection "desc")
        ((60001 - 1) * (10 : Nat)) 10).2
      = StoreCall.findOne [] "Transaction ID" (sortDirection "desc")
          ((60001 - 1) * (10 : Nat)) :: rest :=
  ((strategy_by_offset (listStore fragmentEngine (idDocs 3))
    ⟨60001, 10, "Asha", "date", "desc", noFilters⟩).1 (by decide)).2.1

end SalesBackend
